import Mathlib

/-!
# product-warehouse-api: use-case layer and repositories

A shallow embedding of

* `internal/usecase/product/service.go` (the `Service` and its five methods),
* `internal/repository/product/postgres.go` (the SQL repository, over an abstract
  `database/sql` handle),
* the in-memory `MockRepository` of `internal/usecase/product/service_test.go`,
* `internal/usecase/product/interface.go` and `internal/delivery/http/router.go`, with the
  handlers of `internal/delivery/http/handler` modelled from the specification.

Go methods that touch a store are written in state-passing style: a method takes the
store state and returns its Go results together with the next store state.
`int64`/`int` values are unbounded `Int`; no arithmetic of the embedded code other than
the mock's id counter can leave the 64-bit range, and that counter would need `2 ^ 63`
live map entries to do so. A `*entity.Product` argument is a non-nil pointer and is
modelled by the record it points to. The in-memory repository is embedded twice:
`MockRepository` keeps record values (the value each pointer held when the call that
stored it returned), `PointerMock` keeps the pointers and the heap they point into and so
also shows what writes through a shared pointer do.
-/

namespace ProductWarehouse

/-! ## float64 -/

/-- An IEEE-754 binary64 value (Go `float64`), kept as its three bit fields. Only the
comparisons used by the service are modelled, never rounding arithmetic. -/
structure Float64 where
  sign : Bool
  exponent : Fin 2048
  mantissa : Fin (2 ^ 52)
deriving DecidableEq

namespace Float64

/-- Decode a 64-bit pattern (as produced by Go `math.Float64frombits`). -/
def ofBits (b : Nat) : Float64 :=
  ⟨decide ((b / 2 ^ 63) % 2 = 1),
   ⟨(b / 2 ^ 52) % 2048, Nat.mod_lt _ (by decide)⟩,
   ⟨b % 2 ^ 52, Nat.mod_lt _ (by decide)⟩⟩

/-- NaN: all exponent bits set and a non-zero mantissa. -/
def isNaN (x : Float64) : Bool :=
  x.exponent.val == 2047 && x.mantissa.val != 0

/-- The 63 magnitude bits read as a natural number; on non-NaN values the numeric order
of absolute values is the order of these numbers. -/
def magnitude (x : Float64) : Nat :=
  x.exponent.val * 2 ^ 52 + x.mantissa.val

/-- Signed magnitude; `+0` and `-0` both map to `0`. -/
def key (x : Float64) : Int :=
  if x.sign then -(x.magnitude : Int) else (x.magnitude : Int)

/-- Go `x <= y` on `float64`: false as soon as an operand is NaN. -/
def le (x y : Float64) : Bool :=
  !x.isNaN && !y.isNaN && decide (x.key ≤ y.key)

/-- Go `x < y` on `float64`: false as soon as an operand is NaN. -/
def lt (x y : Float64) : Bool :=
  !x.isNaN && !y.isNaN && decide (x.key < y.key)

/-- The constant `0` of the comparisons `p.Price <= 0`. -/
def zero : Float64 := ofBits 0

/-- The quiet NaN returned by Go `math.NaN()`. -/
def nan : Float64 := ofBits 0x7FF8000000000001

end Float64

/-! ## errors -/

/-- Errors handed back by `database/sql` and the driver. `ErrNoRows` is the sentinel
`sql.ErrNoRows`, which the repository recognises by identity. -/
inductive DriverError where
  | ErrNoRows
  | Other (msg : String)
deriving DecidableEq

/-- Go `error` values seen by this program: either an `*errors.errorString` allocated by
`errors.New` in the repository's own code, or an error coming from the SQL layer. The two
constructors are disjoint, as a freshly allocated `errors.New` value is never identical to
a value the driver returned. -/
inductive GoError where
  | errorString (msg : String)
  | sql (e : DriverError)
deriving DecidableEq

/-- Go `errors.New`. -/
def errors.New (msg : String) : GoError := GoError.errorString msg

/-- Go `err.Error()`. -/
def GoError.Error : GoError → String
  | GoError.errorString msg => msg
  | GoError.sql DriverError.ErrNoRows => "sql: no rows in result set"
  | GoError.sql (DriverError.Other msg) => msg

/-! ## entity and repository capability -/

/-- Modelled from the spec: the struct `entity.Product` (package `internal/entity`), with
the five fields `id:int, name:string, description:string, price:number, quantity:int`
that the service, the repository and the tests read and write. -/
structure Product where
  ID : Int
  Name : String
  Description : String
  Price : Float64
  Quantity : Int
deriving DecidableEq

/-- Modelled from the spec: the interface `Repository` of package `usecase/product`, the
capability set Create, GetByID, Update, Delete, GetAll that `Service.repo` is called
through (signatures as implemented by `PostgresRepository` and `MockRepository`). A Go
result `(v, err)` is a pair whose second component is `none` for `nil`. -/
structure Repository (σ : Type) where
  Create : Product → σ → (Int × Option GoError) × σ
  GetByID : Int → σ → (Option Product × Option GoError) × σ
  Update : Int → Product → σ → Option GoError × σ
  Delete : Int → σ → Option GoError × σ
  GetAll : σ → (List Product × Option GoError) × σ

/-! ## internal/usecase/product/service.go -/

/-- Go `type Service struct { repo Repository }`. -/
structure Service (σ : Type) where
  repo : Repository σ

/-- Go `func New(repo Repository) *Service`. -/
def New {σ : Type} (repo : Repository σ) : Service σ := ⟨repo⟩

namespace Service

variable {σ : Type}

/-- Go `func (s *Service) Create(p *entity.Product) (int64, error)`. -/
def Create (svc : Service σ) (p : Product) (s : σ) : (Int × Option GoError) × σ :=
  if p.Name = "" then
    ((0, some (errors.New "name is required")), s)
  else if p.Price.le Float64.zero then
    ((0, some (errors.New "price must be greater than zero")), s)
  else if p.Quantity < 0 then
    ((0, some (errors.New "quantity must be non-negative")), s)
  else
    svc.repo.Create p s

/-- Go `func (s *Service) GetByID(id int64) (*entity.Product, error)`. -/
def GetByID (svc : Service σ) (id : Int) (s : σ) : (Option Product × Option GoError) × σ :=
  if id ≤ 0 then
    ((none, some (errors.New "invalid id")), s)
  else
    svc.repo.GetByID id s

/-- Go `func (s *Service) Update(id int64, p *entity.Product) error`. -/
def Update (svc : Service σ) (id : Int) (p : Product) (s : σ) : Option GoError × σ :=
  if id ≤ 0 then
    (some (errors.New "invalid id"), s)
  else if p.Name = "" then
    (some (errors.New "name is required"), s)
  else if p.Price.le Float64.zero then
    (some (errors.New "price must be greater than zero"), s)
  else if p.Quantity < 0 then
    (some (errors.New "quantity must be non-negative"), s)
  else
    svc.repo.Update id p s

/-- Go `func (s *Service) Delete(id int64) error`. -/
def Delete (svc : Service σ) (id : Int) (s : σ) : Option GoError × σ :=
  if id ≤ 0 then
    (some (errors.New "invalid id"), s)
  else
    svc.repo.Delete id s

/-- Go `func (s *Service) GetAll() ([]*entity.Product, error)`. -/
def GetAll (svc : Service σ) (s : σ) : (List Product × Option GoError) × σ :=
  svc.repo.GetAll s

end Service

/-! ## MockRepository (service_test.go) -/

/-- Go `map[int64]*entity.Product`, as an association list without repeated keys. -/
abbrev ProductMap := List (Int × Product)

namespace ProductMap

/-- Go `p, exists := m[id]`. -/
def get : ProductMap → Int → Option Product
  | [], _ => none
  | (k, v) :: rest, id => if k = id then some v else get rest id

/-- Go `m[id] = p`. -/
def set : ProductMap → Int → Product → ProductMap
  | [], id, p => [(id, p)]
  | (k, v) :: rest, id, p => if k = id then (k, p) :: rest else (k, v) :: set rest id p

/-- Go `delete(m, id)`. -/
def delete : ProductMap → Int → ProductMap
  | [], _ => []
  | (k, v) :: rest, id => if k = id then delete rest id else (k, v) :: delete rest id

end ProductMap

/-- Go `type MockRepository struct { products map[int64]*entity.Product; nextID int64 }`. -/
structure MockRepository where
  products : ProductMap
  nextID : Int
deriving DecidableEq

/-- Go `func NewMockRepository() *MockRepository`. -/
def NewMockRepository : MockRepository := { products := [], nextID := 1 }

namespace MockRepository

/-- Go `func (m *MockRepository) Create`, on record values: the write `p.ID = id` goes
through the caller's pointer, so the record the map holds right after the call is `p` with
its id replaced. The map keeps the pointer itself; what a later call through the same
pointer does to this record is the subject of `PointerMock.Create`. -/
def Create (p : Product) (m : MockRepository) : (Int × Option GoError) × MockRepository :=
  let id := m.nextID
  let p1 := { p with ID := id }
  ((id, none), { products := m.products.set id p1, nextID := m.nextID + 1 })

/-- Go `func (m *MockRepository) GetByID`. -/
def GetByID (id : Int) (m : MockRepository) :
    (Option Product × Option GoError) × MockRepository :=
  match m.products.get id with
  | some p => ((some p, none), m)
  | none => ((none, some (errors.New "product not found")), m)

/-- Go `func (m *MockRepository) Update`, on record values: the record the map holds under
`id` right after the call is `p` with its id replaced. The write `p.ID = id` also reaches
any other entry that holds the same pointer; `PointerMock.Update` models that. -/
def Update (id : Int) (p : Product) (m : MockRepository) : Option GoError × MockRepository :=
  match m.products.get id with
  | none => (some (errors.New "product not found"), m)
  | some _ =>
    let p1 := { p with ID := id }
    (none, { m with products := m.products.set id p1 })

/-- Go `func (m *MockRepository) Delete`. -/
def Delete (id : Int) (m : MockRepository) : Option GoError × MockRepository :=
  match m.products.get id with
  | none => (some (errors.New "product not found"), m)
  | some _ => (none, { m with products := m.products.delete id })

/-- Go `func (m *MockRepository) GetAll`; Go leaves the iteration order of a map
unspecified, the list order stands for one such order. -/
def GetAll (m : MockRepository) : (List Product × Option GoError) × MockRepository :=
  ((m.products.map Prod.snd, none), m)

/-- The mock seen through the `Repository` interface. -/
def asRepository : Repository MockRepository :=
  { Create := Create, GetByID := GetByID, Update := Update, Delete := Delete,
    GetAll := GetAll }

end MockRepository

/-! ## internal/repository/product/postgres.go -/

/-- A statement parameter passed to `database/sql`. -/
inductive SqlValue where
  | int (v : Int)
  | text (v : String)
  | float (v : Float64)
deriving DecidableEq

/-- The five column values `id, name, description, price, quantity` that
`Scan(&p.ID, &p.Name, &p.Description, &p.Price, &p.Quantity)` writes. -/
abbrev ProductColumns := Int × String × String × Float64 × Int

/-- Go `*sql.Row` as seen by its caller: what `Scan` does for the two destination shapes
the repository uses. `Scan` fails with `sql.ErrNoRows` when the query selected no row. -/
structure Row where
  ScanID : Except DriverError Int
  ScanProduct : Except DriverError ProductColumns

/-- Go `sql.Result`: only `RowsAffected()` is used. -/
structure SqlResult where
  RowsAffected : Except DriverError Int

/-- Go `*sql.Rows`: the outcome of `Scan` after each successful `Next()`. -/
abbrev Rows := List (Except DriverError ProductColumns)

/-- Go `*sql.DB`, an external collaborator: the three entry points the repository calls,
over an abstract store state. -/
structure DB (σ : Type) where
  QueryRow : String → List SqlValue → σ → Row × σ
  Exec : String → List SqlValue → σ → Except DriverError SqlResult × σ
  Query : String → List SqlValue → σ → Except DriverError Rows × σ

/-- Go `type PostgresRepository struct { db *sql.DB }`. -/
structure PostgresRepository (σ : Type) where
  db : DB σ

/-- Go `func NewPostgresRepository(db *sql.DB) *PostgresRepository`. -/
def NewPostgresRepository {σ : Type} (db : DB σ) : PostgresRepository σ := ⟨db⟩

namespace PostgresRepository

variable {σ : Type}

/-- Statement text of `Create`. -/
def createQuery : String :=
  "\n\t\tINSERT INTO products (name, description, price, quantity)\n\t\tVALUES ($1, $2, $3, $4)\n\t\tRETURNING id\n\t"

/-- Statement text of `GetByID`. -/
def getByIDQuery : String :=
  "\n\t\tSELECT id, name, description, price, quantity\n\t\tFROM products\n\t\tWHERE id = $1\n\t"

/-- Statement text of `Update`. -/
def updateQuery : String :=
  "\n\t\tUPDATE products\n\t\tSET name = $1, description = $2, price = $3, quantity = $4\n\t\tWHERE id = $5\n\t"

/-- Statement text of `Delete`. -/
def deleteQuery : String := "DELETE FROM products WHERE id = $1"

/-- Statement text of `GetAll`. -/
def getAllQuery : String :=
  "\n\t\tSELECT id, name, description, price, quantity\n\t\tFROM products\n\t\tORDER BY id\n\t"

/-- The record built from scanned columns. -/
def productOfColumns (c : ProductColumns) : Product :=
  { ID := c.1, Name := c.2.1, Description := c.2.2.1, Price := c.2.2.2.1,
    Quantity := c.2.2.2.2 }

/-- Go `func (r *PostgresRepository) Create`. -/
def Create (r : PostgresRepository σ) (p : Product) (s : σ) : (Int × Option GoError) × σ :=
  let q := r.db.QueryRow createQuery
    [SqlValue.text p.Name, SqlValue.text p.Description, SqlValue.float p.Price,
     SqlValue.int p.Quantity] s
  match q.1.ScanID with
  | Except.error e => ((0, some (GoError.sql e)), q.2)
  | Except.ok id => ((id, none), q.2)

/-- Go `func (r *PostgresRepository) GetByID`. -/
def GetByID (r : PostgresRepository σ) (id : Int) (s : σ) :
    (Option Product × Option GoError) × σ :=
  let q := r.db.QueryRow getByIDQuery [SqlValue.int id] s
  match q.1.ScanProduct with
  | Except.error e =>
    if e = DriverError.ErrNoRows then
      ((none, some (errors.New "product not found")), q.2)
    else
      ((none, some (GoError.sql e)), q.2)
  | Except.ok c => ((some (productOfColumns c), none), q.2)

/-- Go `func (r *PostgresRepository) Update`. -/
def Update (r : PostgresRepository σ) (id : Int) (p : Product) (s : σ) : Option GoError × σ :=
  let x := r.db.Exec updateQuery
    [SqlValue.text p.Name, SqlValue.text p.Description, SqlValue.float p.Price,
     SqlValue.int p.Quantity, SqlValue.int id] s
  match x.1 with
  | Except.error e => (some (GoError.sql e), x.2)
  | Except.ok res =>
    match res.RowsAffected with
    | Except.error e => (some (GoError.sql e), x.2)
    | Except.ok rows =>
      if rows = 0 then (some (errors.New "product not found"), x.2) else (none, x.2)

/-- Go `func (r *PostgresRepository) Delete`. -/
def Delete (r : PostgresRepository σ) (id : Int) (s : σ) : Option GoError × σ :=
  let x := r.db.Exec deleteQuery [SqlValue.int id] s
  match x.1 with
  | Except.error e => (some (GoError.sql e), x.2)
  | Except.ok res =>
    match res.RowsAffected with
    | Except.error e => (some (GoError.sql e), x.2)
    | Except.ok rows =>
      if rows = 0 then (some (errors.New "product not found"), x.2) else (none, x.2)

/-- The loop `for rows.Next() { ... rows.Scan(...) ... products = append(products, &p) }`
of `GetAll`: a failing `Scan` returns `nil, err`. -/
def scanRows : Rows → List Product → List Product × Option GoError
  | [], products => (products, none)
  | Except.error e :: _, _ => ([], some (GoError.sql e))
  | Except.ok c :: rest, products => scanRows rest (products ++ [productOfColumns c])

/-- Go `func (r *PostgresRepository) GetAll`. -/
def GetAll (r : PostgresRepository σ) (s : σ) : (List Product × Option GoError) × σ :=
  let q := r.db.Query getAllQuery [] s
  match q.1 with
  | Except.error e => (([], some (GoError.sql e)), q.2)
  | Except.ok rows => (scanRows rows [], q.2)

/-- The SQL repository seen through the `Repository` interface. -/
def asRepository (r : PostgresRepository σ) : Repository σ :=
  { Create := r.Create, GetByID := r.GetByID, Update := r.Update, Delete := r.Delete,
    GetAll := r.GetAll }

end PostgresRepository

/-! ## ghost instrumentation and specification vocabulary -/

/-- One call made through the `Repository` interface, with its arguments. -/
inductive RepoCall where
  | Create (p : Product)
  | GetByID (id : Int)
  | Update (id : Int) (p : Product)
  | Delete (id : Int)
  | GetAll
deriving DecidableEq

/-- A repository that behaves as `repo` and appends every call it receives to a log kept
next to the store state. The log is never read by the code. -/
def traced {σ : Type} (repo : Repository σ) : Repository (σ × List RepoCall) :=
  { Create := fun p s =>
      ((repo.Create p s.1).1, ((repo.Create p s.1).2, s.2 ++ [RepoCall.Create p]))
    GetByID := fun id s =>
      ((repo.GetByID id s.1).1, ((repo.GetByID id s.1).2, s.2 ++ [RepoCall.GetByID id]))
    Update := fun id p s =>
      ((repo.Update id p s.1).1, ((repo.Update id p s.1).2, s.2 ++ [RepoCall.Update id p]))
    Delete := fun id s =>
      ((repo.Delete id s.1).1, ((repo.Delete id s.1).2, s.2 ++ [RepoCall.Delete id]))
    GetAll := fun s =>
      ((repo.GetAll s.1).1, ((repo.GetAll s.1).2, s.2 ++ [RepoCall.GetAll])) }

/-- The Product invariants of the data model: name non-empty, price `> 0`,
quantity `>= 0`. -/
def Product.Valid (p : Product) : Prop :=
  p.Name ≠ "" ∧ Float64.lt Float64.zero p.Price = true ∧ 0 ≤ p.Quantity

instance (p : Product) : Decidable p.Valid := by
  unfold Product.Valid; infer_instance

/-- How `Update` and `Delete` turn the outcome `x` of `db.Exec` into their result `out`:
a failing statement or a failing `RowsAffected()` gives that driver error unchanged, zero
affected rows give "product not found", any other count gives `nil`; and the not-found
error arises in the zero-rows case only. The store is left as `Exec` left it. -/
def ExecOutcome {σ : Type} (x : Except DriverError SqlResult × σ) (out : Option GoError × σ) :
    Prop :=
  (∀ e, x.1 = Except.error e → out = (some (GoError.sql e), x.2)) ∧
  (∀ res e, x.1 = Except.ok res → res.RowsAffected = Except.error e →
    out = (some (GoError.sql e), x.2)) ∧
  (∀ res, x.1 = Except.ok res → res.RowsAffected = Except.ok 0 →
    out = (some (errors.New "product not found"), x.2)) ∧
  (∀ res n, x.1 = Except.ok res → res.RowsAffected = Except.ok n → n ≠ 0 →
    out = (none, x.2)) ∧
  (out.1 = some (errors.New "product not found") ↔
    ∃ res, x.1 = Except.ok res ∧ res.RowsAffected = Except.ok 0)

/-- A `database/sql` handle with canned answers and no state, to instantiate statements
about `PostgresRepository`. -/
def stubDB (row : Row) (res : Except DriverError SqlResult) (rows : Except DriverError Rows) :
    DB Unit :=
  { QueryRow := fun _ _ s => (row, s)
    Exec := fun _ _ s => (res, s)
    Query := fun _ _ s => (rows, s) }

/-- A handle on which every query selects no row and every statement affects no row. -/
def noRowDB : DB Unit :=
  stubDB
    { ScanID := Except.error DriverError.ErrNoRows,
      ScanProduct := Except.error DriverError.ErrNoRows }
    (Except.ok { RowsAffected := Except.ok 0 })
    (Except.ok [])

/-- The facts about reachable stores that the round-trip properties rest on: the id
counter is positive and every key of the map is positive and below the counter. -/
def MockRepository.WellFormed (m : MockRepository) : Prop :=
  1 ≤ m.nextID ∧ ∀ k v, m.products.get k = some v → 0 < k ∧ k < m.nextID

/-- The service of the unit tests: `New(NewMockRepository())`. -/
def mockService : Service MockRepository := New MockRepository.asRepository

/-- Store states of the in-memory repository that a sequence of service calls reaches
from `NewMockRepository()`. -/
inductive Reachable : MockRepository → Prop where
  | empty : Reachable NewMockRepository
  | Create (p : Product) {m : MockRepository} :
      Reachable m → Reachable (mockService.Create p m).2
  | GetByID (id : Int) {m : MockRepository} :
      Reachable m → Reachable (mockService.GetByID id m).2
  | Update (id : Int) (p : Product) {m : MockRepository} :
      Reachable m → Reachable (mockService.Update id p m).2
  | Delete (id : Int) {m : MockRepository} :
      Reachable m → Reachable (mockService.Delete id m).2
  | GetAll {m : MockRepository} :
      Reachable m → Reachable (mockService.GetAll m).2

/-! ## map traversal order, repeated creation, a table-backed store -/

/-- Go `func (m *MockRepository) GetAll` under one traversal order. The loop
`for _, p := range m.products` visits every entry once, in an order the language leaves
unspecified and the runtime varies from run to run; `iter` is the order of one traversal.
`MockRepository.GetAll` is the case where it is the list order. -/
def MockRepository.GetAllIn (iter : ProductMap → ProductMap) (m : MockRepository) :
    (List Product × Option GoError) × MockRepository :=
  (((iter m.products).map Prod.snd, none), m)

/-- The mock seen through the `Repository` interface, with `iter` as traversal order. -/
def MockRepository.asRepositoryIn (iter : ProductMap → ProductMap) :
    Repository MockRepository :=
  { Create := MockRepository.Create, GetByID := MockRepository.GetByID,
    Update := MockRepository.Update, Delete := MockRepository.Delete,
    GetAll := MockRepository.GetAllIn iter }

/-- The column values of a row. -/
def Product.columns (p : Product) : ProductColumns :=
  (p.ID, p.Name, p.Description, p.Price, p.Quantity)

/-- Row order of `ORDER BY id`. -/
def Product.idLE (a b : Product) : Prop := a.ID ≤ b.ID

instance : DecidableRel Product.idLE := fun a b => by
  unfold Product.idLE; infer_instance

instance : IsTotal Product Product.idLE := ⟨fun a b => Int.le_total a.ID b.ID⟩

instance : IsTrans Product Product.idLE := ⟨fun _ _ _ h1 h2 => Int.le_trans h1 h2⟩

/-- A relational table `products(id, name, description, price, quantity)` whose key is
generated by the store: the rows in heap order (newest first) and the next key. -/
structure Table where
  rows : List Product
  nextID : Int
deriving DecidableEq

/-- A newly created table: no rows, its key sequence at `1`. -/
def Table.empty : Table := { rows := [], nextID := 1 }

/-- A row handle on which every `Scan` fails with `e`. -/
def Row.failed (e : DriverError) : Row :=
  { ScanID := Except.error e, ScanProduct := Except.error e }

/-- A stand-in `database/sql` handle over a `Table`, written for executable examples: it
answers the five statement texts of `PostgresRepository` as a relational store would (the
listing statement with the rows sorted by id) and rejects any other text. It is not part
of the program. -/
def tableDB : DB Table :=
  { QueryRow := fun q args t =>
      if q = PostgresRepository.createQuery then
        match args with
        | [SqlValue.text n, SqlValue.text d, SqlValue.float x, SqlValue.int k] =>
          ({ ScanID := Except.ok t.nextID,
             ScanProduct := Except.error (DriverError.Other "sql: expected 1 destination") },
           { rows := { ID := t.nextID, Name := n, Description := d, Price := x,
                       Quantity := k } :: t.rows,
             nextID := t.nextID + 1 })
        | _ => (Row.failed (DriverError.Other "pq: bad parameters"), t)
      else if q = PostgresRepository.getByIDQuery then
        match args with
        | [SqlValue.int id] =>
          match t.rows.find? (fun p => decide (p.ID = id)) with
          | some p =>
            ({ ScanID := Except.error (DriverError.Other "sql: expected 5 destinations"),
               ScanProduct := Except.ok p.columns }, t)
          | none => (Row.failed DriverError.ErrNoRows, t)
        | _ => (Row.failed (DriverError.Other "pq: bad parameters"), t)
      else (Row.failed (DriverError.Other "pq: unknown statement"), t)
    Exec := fun q args t =>
      if q = PostgresRepository.updateQuery then
        match args with
        | [SqlValue.text n, SqlValue.text d, SqlValue.float x, SqlValue.int k,
           SqlValue.int id] =>
          (Except.ok
            { RowsAffected := Except.ok ((t.rows.filter (fun p => decide (p.ID = id))).length) },
           { t with rows := t.rows.map (fun p =>
               if p.ID = id then
                 { ID := id, Name := n, Description := d, Price := x, Quantity := k }
               else p) })
        | _ => (Except.error (DriverError.Other "pq: bad parameters"), t)
      else if q = PostgresRepository.deleteQuery then
        match args with
        | [SqlValue.int id] =>
          (Except.ok
            { RowsAffected := Except.ok ((t.rows.filter (fun p => decide (p.ID = id))).length) },
           { t with rows := t.rows.filter (fun p => !decide (p.ID = id)) })
        | _ => (Except.error (DriverError.Other "pq: bad parameters"), t)
      else (Except.error (DriverError.Other "pq: unknown statement"), t)
    Query := fun q _ t =>
      if q = PostgresRepository.getAllQuery then
        (Except.ok ((t.rows.insertionSort Product.idLE).map (fun p => Except.ok p.columns)), t)
      else (Except.error (DriverError.Other "pq: unknown statement"), t) }

/-- The service of `main.go` wired to the table-backed store:
`productUC.New(productRepo.NewPostgresRepository(database))`. -/
def tableService : Service Table := New (NewPostgresRepository tableDB).asRepository

/-- Three records in the manner of `TestGetAll_MultipleProducts`. -/
def threeProducts : List Product :=
  [ { ID := 0, Name := "Product 1", Description := "",
      Price := Float64.ofBits 0x4025FAE147AE147B, Quantity := 5 },
    { ID := 0, Name := "Product 2", Description := "",
      Price := Float64.ofBits 0x4034FD70A3D70A3D, Quantity := 10 },
    { ID := 0, Name := "Product 3", Description := "",
      Price := Float64.ofBits 0x403EFD70A3D70A3D, Quantity := 15 } ]

/-! ## internal/usecase/product/interface.go, internal/delivery/http -/

/-- Go `type UseCase interface` of `interface.go`, state-passing like `Repository`. -/
structure UseCase (σ : Type) where
  Create : Product → σ → (Int × Option GoError) × σ
  GetByID : Int → σ → (Option Product × Option GoError) × σ
  Update : Int → Product → σ → Option GoError × σ
  Delete : Int → σ → Option GoError × σ
  GetAll : σ → (List Product × Option GoError) × σ

/-- The `*Service` seen through the `UseCase` interface, as `main.go` passes it to
`handler.NewProductHandler`. -/
def Service.asUseCase {σ : Type} (svc : Service σ) : UseCase σ :=
  { Create := svc.Create, GetByID := svc.GetByID, Update := svc.Update,
    Delete := svc.Delete, GetAll := svc.GetAll }

/-- One call made through the `UseCase` interface, with its arguments. -/
inductive UseCaseCall where
  | Create (p : Product)
  | GetByID (id : Int)
  | Update (id : Int) (p : Product)
  | Delete (id : Int)
  | GetAll
deriving DecidableEq

/-- A use case that behaves as `uc` and appends every call it receives to a log kept next
to the store state. The log is never read by the code. -/
def UseCase.traced {σ : Type} (uc : UseCase σ) : UseCase (σ × List UseCaseCall) :=
  { Create := fun p s =>
      ((uc.Create p s.1).1, ((uc.Create p s.1).2, s.2 ++ [UseCaseCall.Create p]))
    GetByID := fun id s =>
      ((uc.GetByID id s.1).1, ((uc.GetByID id s.1).2, s.2 ++ [UseCaseCall.GetByID id]))
    Update := fun id p s =>
      ((uc.Update id p s.1).1, ((uc.Update id p s.1).2, s.2 ++ [UseCaseCall.Update id p]))
    Delete := fun id s =>
      ((uc.Delete id s.1).1, ((uc.Delete id s.1).2, s.2 ++ [UseCaseCall.Delete id]))
    GetAll := fun s =>
      ((uc.GetAll s.1).1, ((uc.GetAll s.1).2, s.2 ++ [UseCaseCall.GetAll])) }

/-- The handler method a request is routed to, with its `:id` path parameter. -/
inductive Endpoint where
  | Create
  | GetAll
  | GetByID (id : String)
  | Update (id : String)
  | Delete (id : String)
deriving DecidableEq

/-- Go `func NewRouter(h *handler.ProductHandler) *gin.Engine` of `router.go`: the route
table of the group `/products`, as a function of the request method and of the path split
at `/`. A `:id` segment matches any non-empty segment. -/
def NewRouter (method : String) (path : List String) : Option Endpoint :=
  match path with
  | ["products"] =>
    if method = "POST" then some Endpoint.Create
    else if method = "GET" then some Endpoint.GetAll
    else none
  | ["products", id] =>
    if id = "" then none
    else if method = "GET" then some (Endpoint.GetByID id)
    else if method = "PUT" then some (Endpoint.Update id)
    else if method = "DELETE" then some (Endpoint.Delete id)
    else none
  | _ => none

/-- The messages of the four `ValidationError`s that `Service` creates. -/
def validationErrors : List GoError :=
  [errors.New "invalid id", errors.New "name is required",
   errors.New "price must be greater than zero", errors.New "quantity must be non-negative"]

/-- Modelled from the spec: the error kinds of the error-handling design, as far as the
handlers tell them apart. -/
inductive ErrorKind where
  | ValidationError
  | NotFound
  | PersistenceError
deriving DecidableEq

/-- Modelled from the spec: the kind of an error reaching a handler (the handler package
is not among the sources). `NotFound` is the repository's "product not found",
`ValidationError` one of the four errors of `Service`, anything else a store failure. -/
def GoError.kind (e : GoError) : ErrorKind :=
  if e = errors.New "product not found" then ErrorKind.NotFound
  else if e ∈ validationErrors then ErrorKind.ValidationError
  else ErrorKind.PersistenceError

/-- The value of a non-empty string of decimal digits. -/
def digitsValue (cs : List Char) : Option Nat :=
  if cs ≠ [] ∧ cs.all Char.isDigit then
    some (cs.foldl (fun n c => 10 * n + (c.toNat - 48)) 0)
  else none

/-- Modelled from the spec: "parses `id` from the path as an integer": an optional sign
followed by decimal digits; `none` when the parameter is not parseable. -/
def parseID (s : String) : Option Int :=
  match s.data with
  | [] => none
  | c :: cs =>
    if c.toNat = 45 then (digitsValue cs).map (fun n => -(n : Int))
    else if c.toNat = 43 then (digitsValue cs).map (fun n => (n : Int))
    else (digitsValue (c :: cs)).map (fun n => (n : Int))

/-- Go `type ProductHandler struct` holding the use case it was built with. -/
structure ProductHandler (σ : Type) where
  uc : UseCase σ

/-- Go `func NewProductHandler(uc UseCase) *ProductHandler`, as the tests call it. -/
def NewProductHandler {σ : Type} (uc : UseCase σ) : ProductHandler σ := ⟨uc⟩

namespace ProductHandler

variable {σ : Type}

/-- Modelled from the spec: the handler of `GET /products/{id}`, absent from the sources.
"Parses `id` from the path as an integer. Fails with 400 if not parseable as an integer.
Calls Service.GetByID; on `ValidationError` or parse failure, 400; on `NotFound`, 404; on
success, 200 with the product payload." The spec names no status for a store failure;
`other` stands for it. The result is the status and the product payload. -/
def GetByID (h : ProductHandler σ) (other : Nat) (idParam : String) (s : σ) :
    (Nat × Option Product) × σ :=
  match parseID idParam with
  | none => ((400, none), s)
  | some id =>
    match (h.uc.GetByID id s).1.2 with
    | some err =>
      match err.kind with
      | ErrorKind.ValidationError => ((400, none), (h.uc.GetByID id s).2)
      | ErrorKind.NotFound => ((404, none), (h.uc.GetByID id s).2)
      | ErrorKind.PersistenceError => ((other, none), (h.uc.GetByID id s).2)
    | none => ((200, (h.uc.GetByID id s).1.1), (h.uc.GetByID id s).2)

/-- Modelled from the spec: the handler of `PUT /products/{id}`, absent from the sources.
"Parses `id` from path (400 if unparseable) and decodes body (400 if malformed). Calls
Service.Update; any error from the Service (validation or not-found) is reported as 400.
On success, 200." The id "is taken from the request path, not the body, and is written
back onto the in-memory record before being passed down". `body` is the decoded record,
`none` for a malformed body. -/
def Update (h : ProductHandler σ) (idParam : String) (body : Option Product) (s : σ) :
    Nat × σ :=
  match parseID idParam with
  | none => (400, s)
  | some id =>
    match body with
    | none => (400, s)
    | some p =>
      match (h.uc.Update id { p with ID := id } s).1 with
      | some _ => (400, (h.uc.Update id { p with ID := id } s).2)
      | none => (200, (h.uc.Update id { p with ID := id } s).2)

/-- Modelled from the spec: the handler of `DELETE /products/{id}`, absent from the
sources. "Parses `id` from path (400 if unparseable). Calls Service.Delete; on
`NotFound`, 404; on other validation failure, 400; on success, 204 with empty body." The
spec names no status for a store failure; `other` stands for it. -/
def Delete (h : ProductHandler σ) (other : Nat) (idParam : String) (s : σ) : Nat × σ :=
  match parseID idParam with
  | none => (400, s)
  | some id =>
    match (h.uc.Delete id s).1 with
    | some err =>
      match err.kind with
      | ErrorKind.NotFound => (404, (h.uc.Delete id s).2)
      | ErrorKind.ValidationError => (400, (h.uc.Delete id s).2)
      | ErrorKind.PersistenceError => (other, (h.uc.Delete id s).2)
    | none => (204, (h.uc.Delete id s).2)

end ProductHandler

/-- The handler of the unit tests over the service and the in-memory repository. -/
def mockHandler : ProductHandler MockRepository := NewProductHandler mockService.asUseCase

/-! ## statements issued, repositories that raise no validation error -/

/-- A statement handed to `database/sql`: its text and its parameters. -/
abbrev SqlCall := String × List SqlValue

/-- A handle that behaves as `db` and appends every statement it receives to a log kept
next to the store state. The log is never read by the code. -/
def recording {σ : Type} (db : DB σ) : DB (σ × List SqlCall) :=
  { QueryRow := fun q a s =>
      ((db.QueryRow q a s.1).1, ((db.QueryRow q a s.1).2, s.2 ++ [(q, a)]))
    Exec := fun q a s =>
      ((db.Exec q a s.1).1, ((db.Exec q a s.1).2, s.2 ++ [(q, a)]))
    Query := fun q a s =>
      ((db.Query q a s.1).1, ((db.Query q a s.1).2, s.2 ++ [(q, a)])) }

/-- A repository whose `Create` and `Update` never return one of the four validation
errors of `Service` themselves. -/
def Repository.RaisesNoValidationError {σ : Type} (repo : Repository σ) : Prop :=
  (∀ p s, ∀ e ∈ validationErrors, (repo.Create p s).1.2 ≠ some e) ∧
  (∀ id p s, ∀ e ∈ validationErrors, (repo.Update id p s).1 ≠ some e)

/-! ## MockRepository with the pointers it keeps -/

/-- The Go heap of `entity.Product` structs, by address: a `*entity.Product` is a `Nat`
and `heap p` is the struct it points to. -/
abbrev Heap := Nat → Product

/-- Go `*p = v`; with `v` the struct at `p` under a new `ID` it is the assignment
`p.ID = id`. -/
def Heap.write (h : Heap) (p : Nat) (v : Product) : Heap :=
  fun c => if c = p then v else h c

/-- Go `map[int64]*entity.Product` with its values as the pointers they are, as an
association list without repeated keys. -/
abbrev PointerMap := List (Int × Nat)

namespace PointerMap

/-- Go `p, exists := m[id]`. -/
def get : PointerMap → Int → Option Nat
  | [], _ => none
  | (k, v) :: rest, id => if k = id then some v else get rest id

/-- Go `m[id] = p`. -/
def set : PointerMap → Int → Nat → PointerMap
  | [], id, p => [(id, p)]
  | (k, v) :: rest, id, p => if k = id then (k, p) :: rest else (k, v) :: set rest id p

/-- Go `delete(m, id)`. -/
def delete : PointerMap → Int → PointerMap
  | [], _ => []
  | (k, v) :: rest, id => if k = id then delete rest id else (k, v) :: delete rest id

end PointerMap

/-- Go `MockRepository` as it lies in memory: the map holds the very pointers its callers
passed, and the structs live in the heap the callers share with it. `MockRepository`
above is this state read through the pointers at the moment each record was stored. -/
structure PointerMock where
  heap : Heap
  products : PointerMap
  nextID : Int

/-- Go `func NewMockRepository() *MockRepository`, in a program whose structs are `heap`. -/
def NewPointerMock (heap : Heap) : PointerMock :=
  { heap := heap, products := [], nextID := 1 }

namespace PointerMock

/-- Go `func (m *MockRepository) Create(p *entity.Product)`: `p.ID = id` is a write to the
caller's struct and `m.products[id] = p` keeps the pointer. -/
def Create (p : Nat) (m : PointerMock) : (Int × Option GoError) × PointerMock :=
  let id := m.nextID
  ((id, none),
   { heap := m.heap.write p { m.heap p with ID := id },
     products := m.products.set id p,
     nextID := m.nextID + 1 })

/-- Go `func (m *MockRepository) GetByID`: the pointer found in the map is returned; the
result here is the struct it points to when the call returns. -/
def GetByID (id : Int) (m : PointerMock) : (Option Product × Option GoError) × PointerMock :=
  match m.products.get id with
  | some p => ((some (m.heap p), none), m)
  | none => ((none, some (errors.New "product not found")), m)

/-- Go `func (m *MockRepository) Update(id int64, p *entity.Product)`: `p.ID = id` is a
write to the caller's struct and `m.products[id] = p` keeps the pointer. -/
def Update (id : Int) (p : Nat) (m : PointerMock) : Option GoError × PointerMock :=
  match m.products.get id with
  | none => (some (errors.New "product not found"), m)
  | some _ =>
    (none,
     { m with heap := m.heap.write p { m.heap p with ID := id },
              products := m.products.set id p })

/-- Go `func (m *MockRepository) Delete`. -/
def Delete (id : Int) (m : PointerMock) : Option GoError × PointerMock :=
  match m.products.get id with
  | none => (some (errors.New "product not found"), m)
  | some _ => (none, { m with products := m.products.delete id })

/-- Go `func (m *MockRepository) GetAll` under the traversal order `iter` of the map: the
pointers are appended in that order; the result is the structs they point to. -/
def GetAllIn (iter : PointerMap → PointerMap) (m : PointerMock) :
    (List Product × Option GoError) × PointerMock :=
  (((iter m.products).map (fun e => m.heap e.2), none), m)

/-- The mock seen through the `Repository` interface in a call whose `*entity.Product`
argument is the pointer `p`: the record value the interface carries is the struct at `p`,
and the mock works on the pointer. -/
def asRepository (iter : PointerMap → PointerMap) (p : Nat) : Repository PointerMock :=
  { Create := fun _ m => Create p m
    GetByID := GetByID
    Update := fun id _ m => Update id p m
    Delete := Delete
    GetAll := GetAllIn iter }

/-- Go `service.Create(p)` on `New(repo)`: the service reads the struct at `p`. -/
def callCreate (iter : PointerMap → PointerMap) (p : Nat) (m : PointerMock) :
    (Int × Option GoError) × PointerMock :=
  (New (asRepository iter p)).Create (m.heap p) m

/-- Go `service.Update(id, p)` on `New(repo)`. -/
def callUpdate (iter : PointerMap → PointerMap) (id : Int) (p : Nat) (m : PointerMock) :
    Option GoError × PointerMock :=
  (New (asRepository iter p)).Update id (m.heap p) m

/-- Go `service.GetByID(id)` on `New(repo)`; the call has no pointer argument. -/
def callGetByID (iter : PointerMap → PointerMap) (id : Int) (m : PointerMock) :
    (Option Product × Option GoError) × PointerMock :=
  (New (asRepository iter 0)).GetByID id m

/-- Go `service.Delete(id)` on `New(repo)`; the call has no pointer argument. -/
def callDelete (iter : PointerMap → PointerMap) (id : Int) (m : PointerMock) :
    Option GoError × PointerMock :=
  (New (asRepository iter 0)).Delete id m

/-- Go `service.GetAll()` on `New(repo)`; the call has no pointer argument. -/
def callGetAll (iter : PointerMap → PointerMap) (m : PointerMock) :
    (List Product × Option GoError) × PointerMock :=
  (New (asRepository iter 0)).GetAll m

/-- The loop of `TestGetAll_MultipleProducts`: one `service.Create` per pointer, the
`(id, err)` results kept in call order. -/
def createAll (iter : PointerMap → PointerMap) :
    List Nat → PointerMock → List (Int × Option GoError) × PointerMock
  | [], m => ([], m)
  | p :: ps, m =>
    ((callCreate iter p m).1 :: (createAll iter ps (callCreate iter p m).2).1,
     (createAll iter ps (callCreate iter p m).2).2)

/-- The id counter is positive and every key of the map is positive and below it. -/
def WellFormed (m : PointerMock) : Prop :=
  1 ≤ m.nextID ∧ ∀ k p, m.products.get k = some p → 0 < k ∧ k < m.nextID

/-- Every entry of the map points to a struct whose `ID` is the entry's key. -/
def Consistent (m : PointerMock) : Prop :=
  ∀ e ∈ m.products, (m.heap e.2).ID = e.1

/-- States the mock and its callers reach from `NewMockRepository()`: service calls with
any pointer, and writes by a caller to any struct, stored in the map or not. -/
inductive Reachable : PointerMock → Prop where
  | empty (heap : Heap) : Reachable (NewPointerMock heap)
  | write (p : Nat) (v : Product) {m : PointerMock} :
      Reachable m → Reachable { m with heap := m.heap.write p v }
  | Create (iter : PointerMap → PointerMap) (p : Nat) {m : PointerMock} :
      Reachable m → Reachable (callCreate iter p m).2
  | GetByID (iter : PointerMap → PointerMap) (id : Int) {m : PointerMock} :
      Reachable m → Reachable (callGetByID iter id m).2
  | Update (iter : PointerMap → PointerMap) (id : Int) (p : Nat) {m : PointerMock} :
      Reachable m → Reachable (callUpdate iter id p m).2
  | Delete (iter : PointerMap → PointerMap) (id : Int) {m : PointerMock} :
      Reachable m → Reachable (callDelete iter id m).2
  | GetAll (iter : PointerMap → PointerMap) {m : PointerMock} :
      Reachable m → Reachable (callGetAll iter m).2

end PointerMock

/-! ## test data -/

/-- The record of `TestCreate_Success`: price `10.99`. -/
def testProduct : Product :=
  { ID := 0, Name := "Test Product", Description := "Test Description",
    Price := Float64.ofBits 0x4025FAE147AE147B, Quantity := 5 }

/-- A record whose price is NaN. -/
def nanProduct : Product := { testProduct with Price := Float64.nan }

/-- A heap with the struct of `TestCreate_Success` at address `0` and a second valid
struct everywhere else. -/
def twoStructs : Heap :=
  fun p => if p = 0 then testProduct else { testProduct with Name := "Second" }

/-- A heap with the three structs of `threeProducts` at the addresses `0`, `1`, `2`. -/
def threeStructs : Heap := fun p => threeProducts.getD p testProduct

/-- The rows of `threeProducts` under the ids `1`, `2`, `3`. -/
def threeRows : List ProductColumns :=
  List.zipWith (fun i p => ({ p with ID := i } : Product).columns) [1, 2, 3] threeProducts

/-- A handle whose every query delivers `threeRows`, in that order. -/
def threeRowsDB : DB Unit :=
  stubDB (Row.failed DriverError.ErrNoRows) (Except.ok { RowsAffected := Except.ok 0 })
    (Except.ok (threeRows.map Except.ok))

/-! ## helper lemmas -/

theorem Float64.not_le_zero_of_pos (x : Float64) (h : Float64.lt Float64.zero x = true) :
    Float64.le x Float64.zero = false := by
  simp only [Float64.lt, Float64.le, Bool.and_eq_true, Bool.not_eq_true',
    decide_eq_true_eq] at h ⊢
  obtain ⟨⟨h0, hx⟩, hk⟩ := h
  simp [h0, hx, not_le.mpr hk]

theorem Product.Valid.checks {p : Product} (h : p.Valid) :
    p.Name ≠ "" ∧ p.Price.le Float64.zero = false ∧ ¬ p.Quantity < 0 :=
  ⟨h.1, Float64.not_le_zero_of_pos _ h.2.1, not_lt.mpr h.2.2⟩

theorem Service.Create_of_checks {σ : Type} (svc : Service σ) (p : Product) (s : σ)
    (h1 : p.Name ≠ "") (h2 : p.Price.le Float64.zero = false) (h3 : ¬ p.Quantity < 0) :
    svc.Create p s = svc.repo.Create p s := by
  simp [Service.Create, h1, h2, h3]

theorem Service.Update_of_checks {σ : Type} (svc : Service σ) (id : Int) (p : Product) (s : σ)
    (h0 : 0 < id) (h1 : p.Name ≠ "") (h2 : p.Price.le Float64.zero = false)
    (h3 : ¬ p.Quantity < 0) :
    svc.Update id p s = svc.repo.Update id p s := by
  simp [Service.Update, not_le.mpr h0, h1, h2, h3]

theorem Service.GetByID_of_pos {σ : Type} (svc : Service σ) (id : Int) (s : σ) (h0 : 0 < id) :
    svc.GetByID id s = svc.repo.GetByID id s := by
  simp [Service.GetByID, not_le.mpr h0]

theorem Service.Delete_of_pos {σ : Type} (svc : Service σ) (id : Int) (s : σ) (h0 : 0 < id) :
    svc.Delete id s = svc.repo.Delete id s := by
  simp [Service.Delete, not_le.mpr h0]

theorem log_append_ne (log : List RepoCall) (c : RepoCall) : log ++ [c] ≠ log := by
  intro h
  have := congrArg List.length h
  simp at this

theorem ProductMap.get_set_self (m : ProductMap) (k : Int) (v : Product) :
    ProductMap.get (ProductMap.set m k v) k = some v := by
  induction m with
  | nil => simp [ProductMap.set, ProductMap.get]
  | cons hd tl ih =>
    obtain ⟨a, b⟩ := hd
    by_cases h : a = k
    · simp [ProductMap.set, ProductMap.get, h]
    · simp [ProductMap.set, ProductMap.get, h, ih]

theorem ProductMap.get_set_of_ne (m : ProductMap) (k j : Int) (v : Product) (hj : j ≠ k) :
    ProductMap.get (ProductMap.set m k v) j = ProductMap.get m j := by
  induction m with
  | nil => simp [ProductMap.set, ProductMap.get, Ne.symm hj]
  | cons hd tl ih =>
    obtain ⟨a, b⟩ := hd
    by_cases h : a = k
    · subst h
      simp [ProductMap.set, ProductMap.get, Ne.symm hj]
    · by_cases h2 : a = j
      · subst h2
        simp [ProductMap.set, ProductMap.get, h]
      · simp [ProductMap.set, ProductMap.get, h, h2, ih]

theorem ProductMap.get_delete_self (m : ProductMap) (k : Int) :
    ProductMap.get (ProductMap.delete m k) k = none := by
  induction m with
  | nil => simp [ProductMap.delete, ProductMap.get]
  | cons hd tl ih =>
    obtain ⟨a, b⟩ := hd
    by_cases h : a = k
    · simp [ProductMap.delete, h, ih]
    · simp [ProductMap.delete, ProductMap.get, h, ih]

theorem ProductMap.get_delete_of_ne (m : ProductMap) (k j : Int) (hj : j ≠ k) :
    ProductMap.get (ProductMap.delete m k) j = ProductMap.get m j := by
  induction m with
  | nil => simp [ProductMap.delete, ProductMap.get]
  | cons hd tl ih =>
    obtain ⟨a, b⟩ := hd
    by_cases h : a = k
    · subst h
      simp [ProductMap.delete, ProductMap.get, Ne.symm hj, ih]
    · by_cases h2 : a = j
      · subst h2
        simp [ProductMap.delete, ProductMap.get, h]
      · simp [ProductMap.delete, ProductMap.get, h, h2, ih]

theorem MockRepository.WellFormed.Create {m : MockRepository} (h : m.WellFormed)
    (p : Product) : (MockRepository.Create p m).2.WellFormed := by
  refine ⟨by simp only [MockRepository.Create]; have := h.1; omega, fun k v hk => ?_⟩
  simp only [MockRepository.Create] at hk ⊢
  by_cases hkn : k = m.nextID
  · subst hkn; have := h.1; omega
  · rw [ProductMap.get_set_of_ne _ _ _ _ hkn] at hk
    have := h.2 k v hk
    omega

theorem MockRepository.WellFormed.Update {m : MockRepository} (h : m.WellFormed)
    (id : Int) (p : Product) : (MockRepository.Update id p m).2.WellFormed := by
  unfold MockRepository.Update
  cases hg : m.products.get id with
  | none => exact h
  | some old =>
    refine ⟨h.1, fun k v hk => ?_⟩
    simp only at hk ⊢
    by_cases hkn : k = id
    · subst hkn; exact h.2 k old hg
    · rw [ProductMap.get_set_of_ne _ _ _ _ hkn] at hk
      exact h.2 k v hk

theorem MockRepository.WellFormed.Delete {m : MockRepository} (h : m.WellFormed)
    (id : Int) : (MockRepository.Delete id m).2.WellFormed := by
  unfold MockRepository.Delete
  cases hg : m.products.get id with
  | none => exact h
  | some old =>
    refine ⟨h.1, fun k v hk => ?_⟩
    simp only at hk ⊢
    by_cases hkn : k = id
    · subst hkn; rw [ProductMap.get_delete_self] at hk; cases hk
    · rw [ProductMap.get_delete_of_ne _ _ _ hkn] at hk
      exact h.2 k v hk

theorem MockRepository.GetByID_state (id : Int) (m : MockRepository) :
    (MockRepository.GetByID id m).2 = m := by
  unfold MockRepository.GetByID
  cases m.products.get id <;> rfl

theorem Reachable.wellFormed {m : MockRepository} (h : Reachable m) : m.WellFormed := by
  induction h with
  | empty =>
    exact ⟨by decide, fun k v hk => by simp [NewMockRepository, ProductMap.get] at hk⟩
  | Create p _ ih =>
    unfold Service.Create
    split_ifs
    · exact ih
    · exact ih
    · exact ih
    · exact ih.Create p
  | GetByID id _ ih =>
    unfold Service.GetByID
    split_ifs
    · exact ih
    · show (MockRepository.GetByID id _).2.WellFormed
      rw [MockRepository.GetByID_state]; exact ih
  | Update id p _ ih =>
    unfold Service.Update
    split_ifs
    · exact ih
    · exact ih
    · exact ih
    · exact ih
    · exact ih.Update id p
  | Delete id _ ih =>
    unfold Service.Delete
    split_ifs
    · exact ih
    · exact ih.Delete id
  | GetAll _ ih => exact ih

/-! ## C1 -/

/-- C1: `Service.Create` reports one validation error, chosen in the order name, price,
quantity: an empty name gives "name is required" whatever the other fields are; otherwise
a price `<= 0` gives "price must be greater than zero" whatever the quantity is; otherwise
a negative quantity gives "quantity must be non-negative". -/
theorem Service.Create_validation_priority {σ : Type} (svc : Service σ) (p : Product) (s : σ) :
    (p.Name = "" →
      (svc.Create p s).1.2.map GoError.Error = some "name is required") ∧
    (p.Name ≠ "" → p.Price.le Float64.zero = true →
      (svc.Create p s).1.2.map GoError.Error = some "price must be greater than zero") ∧
    (p.Name ≠ "" → p.Price.le Float64.zero = false → p.Quantity < 0 →
      (svc.Create p s).1.2.map GoError.Error = some "quantity must be non-negative") := by
  refine ⟨?_, ?_, ?_⟩
  · intro h
    simp [Service.Create, h, errors.New, GoError.Error]
  · intro h1 h2
    simp [Service.Create, h1, h2, errors.New, GoError.Error]
  · intro h1 h2 h3
    simp [Service.Create, h1, h2, h3, errors.New, GoError.Error]

theorem Service.Create_validation_priority_witness :
    (({ testProduct with Name := "", Price := Float64.nan, Quantity := -5 } : Product).Name = "" ∧
      ((mockService.Create { testProduct with Name := "", Price := Float64.nan, Quantity := -5 }
        NewMockRepository).1.2.map GoError.Error = some "name is required")) ∧
    (testProduct.Name ≠ "" ∧
      Float64.le ({ testProduct with Price := Float64.zero, Quantity := -5 } : Product).Price
        Float64.zero = true ∧
      (mockService.Create { testProduct with Price := Float64.zero, Quantity := -5 }
        NewMockRepository).1.2.map GoError.Error = some "price must be greater than zero") ∧
    (testProduct.Name ≠ "" ∧ Float64.le testProduct.Price Float64.zero = false ∧
      (-5 : Int) < 0 ∧
      (mockService.Create { testProduct with Quantity := -5 }
        NewMockRepository).1.2.map GoError.Error = some "quantity must be non-negative") :=
  ⟨⟨rfl, (Service.Create_validation_priority mockService
      { testProduct with Name := "", Price := Float64.nan, Quantity := -5 }
      NewMockRepository).1 rfl⟩,
   ⟨by decide, by decide,
    (Service.Create_validation_priority mockService
      { testProduct with Price := Float64.zero, Quantity := -5 } NewMockRepository).2.1
      (by decide) (by decide)⟩,
   ⟨by decide, by decide, by decide,
    (Service.Create_validation_priority mockService
      { testProduct with Quantity := -5 } NewMockRepository).2.2
      (by decide) (by decide) (by decide)⟩⟩

/-! ## C2 -/

/-- C2: for every `id <= 0`, every product and every repository state, `GetByID`, `Update`
and `Delete` fail with the message "invalid id"; run over a call-logging repository, the
store state and the call log come back untouched, so no repository operation ran. -/
theorem Service.invalid_id_rejected {σ : Type} (repo : Repository σ) (id : Int) (p : Product)
    (s : σ) (log : List RepoCall) (h : id ≤ 0) :
    (New (traced repo)).GetByID id (s, log)
        = ((none, some (errors.New "invalid id")), (s, log)) ∧
    (New (traced repo)).Update id p (s, log) = (some (errors.New "invalid id"), (s, log)) ∧
    (New (traced repo)).Delete id (s, log) = (some (errors.New "invalid id"), (s, log)) ∧
    (errors.New "invalid id").Error = "invalid id" := by
  refine ⟨?_, ?_, ?_, rfl⟩
  · simp [Service.GetByID, h]
  · simp [Service.Update, h]
  · simp [Service.Delete, h]

theorem Service.invalid_id_rejected_witness :
    (New (traced MockRepository.asRepository)).GetByID (-1) (NewMockRepository, [])
        = ((none, some (errors.New "invalid id")), (NewMockRepository, [])) ∧
    (New (traced MockRepository.asRepository)).Update (-1) testProduct (NewMockRepository, [])
        = (some (errors.New "invalid id"), (NewMockRepository, [])) ∧
    (New (traced MockRepository.asRepository)).Delete (-1) (NewMockRepository, [])
        = (some (errors.New "invalid id"), (NewMockRepository, [])) ∧
    (errors.New "invalid id").Error = "invalid id" :=
  Service.invalid_id_rejected MockRepository.asRepository (-1) testProduct NewMockRepository []
    (by decide)

/-! ## C3 -/

/-- C3: `Update` checks the id first and then validates the fields as `Create` does: for
`id <= 0` the error is "invalid id" whatever the fields are; for `id > 0`, `Update(id, p)`
is rejected by validation with error `e` (an error returned with the call log untouched)
exactly when `Create(p)` is rejected by validation with the same `e`. -/
theorem Service.Update_validates_as_Create {σ : Type} (repo : Repository σ) (id : Int)
    (p : Product) (s : σ) (log : List RepoCall) :
    (id ≤ 0 →
      (New (traced repo)).Update id p (s, log) = (some (errors.New "invalid id"), (s, log))) ∧
    (0 < id → ∀ e : GoError,
      ((New (traced repo)).Update id p (s, log) = (some e, (s, log)) ↔
        (New (traced repo)).Create p (s, log) = ((0, some e), (s, log)))) := by
  refine ⟨fun h => by simp [Service.Update, h], fun h e => ?_⟩
  have hid : ¬ id ≤ 0 := not_le.mpr h
  by_cases h1 : p.Name = ""
  · simp [Service.Update, Service.Create, hid, h1]
  by_cases h2 : p.Price.le Float64.zero = true
  · simp [Service.Update, Service.Create, hid, h1, h2]
  by_cases h3 : p.Quantity < 0
  · simp [Service.Update, Service.Create, hid, h1, h2, h3]
  · simp [Service.Update, Service.Create, hid, h1, h2, h3, New, traced, Prod.ext_iff]

theorem Service.Update_validates_as_Create_witness :
    ((New (traced MockRepository.asRepository)).Update 0 { testProduct with Name := "" }
        (NewMockRepository, []) = (some (errors.New "invalid id"), (NewMockRepository, []))) ∧
    ((0 : Int) < 1 ∧
      ((New (traced MockRepository.asRepository)).Update 1 { testProduct with Name := "" }
          (NewMockRepository, [])
            = (some (errors.New "name is required"), (NewMockRepository, [])) ↔
        (New (traced MockRepository.asRepository)).Create { testProduct with Name := "" }
          (NewMockRepository, [])
            = ((0, some (errors.New "name is required")), (NewMockRepository, [])))) :=
  ⟨(Service.Update_validates_as_Create MockRepository.asRepository 0
      { testProduct with Name := "" } NewMockRepository []).1 (by decide),
   by decide,
   (Service.Update_validates_as_Create MockRepository.asRepository 1
      { testProduct with Name := "" } NewMockRepository []).2 (by decide) _⟩

/-! ## C4 -/

/-- What the checks of `Create` and `Update` do guarantee about a record that reaches the
repository: the name is non-empty, the price is not `<= 0`, and the quantity is `>= 0`. -/
theorem Service.delegated_record_passed_checks {σ : Type} (repo : Repository σ) (id : Int)
    (p r : Product) (s : σ) (log : List RepoCall) :
    (((New (traced repo)).Create p (s, log)).2.2 = log ++ [RepoCall.Create r] →
      r.Name ≠ "" ∧ r.Price.le Float64.zero = false ∧ 0 ≤ r.Quantity) ∧
    (((New (traced repo)).Update id p (s, log)).2.2 = log ++ [RepoCall.Update id r] →
      r.Name ≠ "" ∧ r.Price.le Float64.zero = false ∧ 0 ≤ r.Quantity) := by
  have hne : ∀ c : RepoCall, log ≠ log ++ [c] := fun c h => log_append_ne log c h.symm
  constructor
  · intro h
    by_cases h1 : p.Name = ""
    · simp [Service.Create, h1] at h
    by_cases h2 : p.Price.le Float64.zero = true
    · simp [Service.Create, h1, h2] at h
    by_cases h3 : p.Quantity < 0
    · simp [Service.Create, h1, h2, h3] at h
    · simp [Service.Create, h1, h2, h3, New, traced] at h
      subst h
      exact ⟨h1, by simpa using h2, not_lt.mp h3⟩
  · intro h
    by_cases h0 : id ≤ 0
    · simp [Service.Update, h0] at h
    by_cases h1 : p.Name = ""
    · simp [Service.Update, h0, h1] at h
    by_cases h2 : p.Price.le Float64.zero = true
    · simp [Service.Update, h0, h1, h2] at h
    by_cases h3 : p.Quantity < 0
    · simp [Service.Update, h0, h1, h2, h3] at h
    · simp [Service.Update, h0, h1, h2, h3, New, traced] at h
      subst h
      exact ⟨h1, by simpa using h2, not_lt.mp h3⟩

/-- C4: the checks let a NaN price through. `Create` and `Update` hand `nanProduct` to the
repository (the call log records it) although its price is not `> 0`. -/
theorem Service.NaN_price_reaches_repository :
    ((New (traced MockRepository.asRepository)).Create nanProduct (NewMockRepository, [])).2.2
        = [RepoCall.Create nanProduct] ∧
    ((New (traced MockRepository.asRepository)).Update 1 nanProduct (NewMockRepository, [])).2.2
        = [RepoCall.Update 1 nanProduct] ∧
    (mockService.Create nanProduct NewMockRepository).1 = (1, none) ∧
    Float64.lt Float64.zero nanProduct.Price = false ∧
    ¬ nanProduct.Valid := by
  decide

/-! ## C5 -/

/-- C5: once validation passes the service returns what the repository returns, for any
repository: `Create` on a valid record, `GetByID` and `Delete` on `id > 0`, `Update` on
`id > 0` and a valid record, and `GetAll` always; so a repository not-found error comes
back unchanged. -/
theorem Service.pass_through {σ : Type} (svc : Service σ) (id : Int) (p : Product) (s : σ) :
    (p.Valid → svc.Create p s = svc.repo.Create p s) ∧
    (0 < id → svc.GetByID id s = svc.repo.GetByID id s) ∧
    (0 < id → svc.Delete id s = svc.repo.Delete id s) ∧
    (0 < id → p.Valid → svc.Update id p s = svc.repo.Update id p s) ∧
    svc.GetAll s = svc.repo.GetAll s ∧
    (0 < id → (svc.repo.GetByID id s).1 = (none, some (errors.New "product not found")) →
      (svc.GetByID id s).1 = (none, some (errors.New "product not found"))) := by
  refine ⟨fun h => ?_, fun h => ?_, fun h => ?_, fun h hp => ?_, rfl, fun h hr => ?_⟩
  · exact Service.Create_of_checks svc p s h.checks.1 h.checks.2.1 h.checks.2.2
  · exact Service.GetByID_of_pos svc id s h
  · exact Service.Delete_of_pos svc id s h
  · exact Service.Update_of_checks svc id p s h hp.checks.1 hp.checks.2.1 hp.checks.2.2
  · rw [Service.GetByID_of_pos svc id s h]; exact hr

theorem Service.pass_through_witness :
    testProduct.Valid ∧ (0 : Int) < 999 ∧
    mockService.Create testProduct NewMockRepository
      = MockRepository.Create testProduct NewMockRepository ∧
    mockService.GetByID 999 NewMockRepository = MockRepository.GetByID 999 NewMockRepository ∧
    mockService.Delete 999 NewMockRepository = MockRepository.Delete 999 NewMockRepository ∧
    mockService.Update 999 testProduct NewMockRepository
      = MockRepository.Update 999 testProduct NewMockRepository ∧
    mockService.GetAll NewMockRepository = MockRepository.GetAll NewMockRepository ∧
    (MockRepository.GetByID 999 NewMockRepository).1
      = (none, some (errors.New "product not found")) ∧
    (mockService.GetByID 999 NewMockRepository).1
      = (none, some (errors.New "product not found")) :=
  have h := Service.pass_through mockService 999 testProduct NewMockRepository
  ⟨by decide, by decide, h.1 (by decide), h.2.1 (by decide), h.2.2.1 (by decide),
   h.2.2.2.1 (by decide) (by decide), h.2.2.2.2.1, by decide,
   h.2.2.2.2.2 (by decide) (by decide)⟩

/-! ## C6 -/

/-- C6: on every store reachable from the empty in-memory repository and for every record
with a non-empty name, price `> 0` and quantity `>= 0`, `Create` succeeds with some id and
`GetByID` of that id then succeeds with a record carrying that id and the name,
description, price and quantity of the created one. -/
theorem Service.Create_GetByID_round_trip (m : MockRepository) (hm : Reachable m)
    (p : Product) (hp : p.Valid) :
    ∃ id, (mockService.Create p m).1 = (id, none) ∧
      ∃ q, (mockService.GetByID id (mockService.Create p m).2).1 = (some q, none) ∧
        q.ID = id ∧ q.Name = p.Name ∧ q.Description = p.Description ∧
        q.Price = p.Price ∧ q.Quantity = p.Quantity := by
  have hwf := hm.wellFormed
  have hc : mockService.Create p m = MockRepository.Create p m :=
    Service.Create_of_checks mockService p m hp.checks.1 hp.checks.2.1 hp.checks.2.2
  have hpos : 0 < m.nextID := by have := hwf.1; omega
  refine ⟨m.nextID, by rw [hc]; rfl, { p with ID := m.nextID }, ?_, rfl, rfl, rfl, rfl, rfl⟩
  rw [hc, Service.GetByID_of_pos mockService _ _ hpos]
  show (MockRepository.GetByID m.nextID (MockRepository.Create p m).2).1 = _
  simp [MockRepository.GetByID, MockRepository.Create, ProductMap.get_set_self]

theorem Service.Create_GetByID_round_trip_witness :
    Reachable NewMockRepository ∧ testProduct.Valid ∧
    ∃ id, (mockService.Create testProduct NewMockRepository).1 = (id, none) ∧
      ∃ q, (mockService.GetByID id (mockService.Create testProduct NewMockRepository).2).1
          = (some q, none) ∧
        q.ID = id ∧ q.Name = testProduct.Name ∧ q.Description = testProduct.Description ∧
        q.Price = testProduct.Price ∧ q.Quantity = testProduct.Quantity :=
  ⟨Reachable.empty, by decide,
   Service.Create_GetByID_round_trip NewMockRepository Reachable.empty testProduct (by decide)⟩

/-! ## C7 -/

/-- C7: on every store of the in-memory repository (reachable from the empty one or not)
and for every id for which `Delete` succeeds, `GetByID` of that id on the resulting store
fails with the error "product not found". -/
theorem Service.Delete_then_GetByID_not_found (m : MockRepository) (id : Int)
    (h : (mockService.Delete id m).1 = none) :
    (mockService.GetByID id (mockService.Delete id m).2).1
        = (none, some (errors.New "product not found")) ∧
    (errors.New "product not found").Error = "product not found" := by
  refine ⟨?_, rfl⟩
  by_cases h0 : id ≤ 0
  · simp [Service.Delete, h0] at h
  have hpos : 0 < id := not_le.mp h0
  rw [Service.Delete_of_pos mockService id m hpos] at h ⊢
  rw [Service.GetByID_of_pos mockService _ _ hpos]
  change (MockRepository.Delete id m).1 = none at h
  show (MockRepository.GetByID id (MockRepository.Delete id m).2).1 = _
  unfold MockRepository.Delete at h ⊢
  cases hg : m.products.get id with
  | none => simp [hg] at h
  | some old => simp [MockRepository.GetByID, ProductMap.get_delete_self]

theorem Service.Delete_then_GetByID_not_found_witness :
    (mockService.Delete 1 (mockService.Create testProduct NewMockRepository).2).1 = none ∧
    (mockService.GetByID 1
      (mockService.Delete 1 (mockService.Create testProduct NewMockRepository).2).2).1
        = (none, some (errors.New "product not found")) ∧
    (errors.New "product not found").Error = "product not found" :=
  ⟨by decide,
   Service.Delete_then_GetByID_not_found
     (mockService.Create testProduct NewMockRepository).2 1 (by decide)⟩

/-! ## C9 -/

/-- C9: `PostgresRepository.Update` and `PostgresRepository.Delete` return the error
"product not found" exactly when the statement ran without a driver error and reported
zero affected rows; a failing statement or a failing `RowsAffected()` gives that driver
error unchanged; any other row count gives `nil`. Hence `Service.Update(999, p)` with
valid fields gives "product not found" on an SQL store that reports no affected row, and
on an in-memory store without key 999. -/
theorem PostgresRepository.Update_Delete_not_found {σ : Type} (r : PostgresRepository σ)
    (id : Int) (p : Product) (s : σ) (m : MockRepository) :
    ExecOutcome
      (r.db.Exec PostgresRepository.updateQuery
        [SqlValue.text p.Name, SqlValue.text p.Description, SqlValue.float p.Price,
         SqlValue.int p.Quantity, SqlValue.int id] s)
      (r.Update id p s) ∧
    ExecOutcome (r.db.Exec PostgresRepository.deleteQuery [SqlValue.int id] s)
      (r.Delete id s) ∧
    (p.Valid →
      (∃ res, (r.db.Exec PostgresRepository.updateQuery
          [SqlValue.text p.Name, SqlValue.text p.Description, SqlValue.float p.Price,
           SqlValue.int p.Quantity, SqlValue.int 999] s).1 = Except.ok res ∧
        res.RowsAffected = Except.ok 0) →
      ((New r.asRepository).Update 999 p s).1 = some (errors.New "product not found")) ∧
    (p.Valid → m.products.get 999 = none →
      (mockService.Update 999 p m).1 = some (errors.New "product not found")) ∧
    (errors.New "product not found").Error = "product not found" := by
  have key : ∀ x : Except DriverError SqlResult × σ,
      ExecOutcome x
        (match x.1 with
          | Except.error e => (some (GoError.sql e), x.2)
          | Except.ok res =>
            match res.RowsAffected with
            | Except.error e => (some (GoError.sql e), x.2)
            | Except.ok rows =>
              if rows = 0 then (some (errors.New "product not found"), x.2)
              else (none, x.2)) := by
    rintro ⟨x1, x2⟩
    cases x1 with
    | error e => simp [ExecOutcome, errors.New]
    | ok res =>
      cases hra : res.RowsAffected with
      | error e =>
        simp only [ExecOutcome, hra]
        refine ⟨fun e1 h => (nomatch h), fun r1 e1 h1 h2 => ?_, fun r1 h1 h2 => ?_,
          fun r1 n h1 h2 _ => ?_, fun h => (nomatch h), fun h => ?_⟩
        · cases h1; rw [hra] at h2; cases h2; rfl
        · cases h1; rw [hra] at h2; cases h2
        · cases h1; rw [hra] at h2; cases h2
        · obtain ⟨r1, h1, h2⟩ := h
          cases h1; rw [hra] at h2; cases h2
      | ok n =>
        simp only [ExecOutcome, hra]
        refine ⟨fun e1 h => (nomatch h), fun r1 e1 h1 h2 => ?_, fun r1 h1 h2 => ?_,
          fun r1 k h1 h2 hk => ?_, fun h => ?_, fun h => ?_⟩
        · cases h1; rw [hra] at h2; cases h2
        · cases h1; rw [hra] at h2; cases h2; rfl
        · cases h1; rw [hra] at h2; cases h2; simp [hk]
        · by_cases hn : n = 0
          · subst hn; exact ⟨res, rfl, hra⟩
          · simp [hn] at h
        · obtain ⟨r1, h1, h2⟩ := h
          cases h1; rw [hra] at h2; cases h2; rfl
  refine ⟨key _, key _, fun hp hz => ?_, fun hp hz => ?_, rfl⟩
  · rw [Service.Update_of_checks _ 999 p s (by decide) hp.checks.1 hp.checks.2.1
      hp.checks.2.2]
    exact ((key _).2.2.2.2).mpr hz
  · rw [Service.Update_of_checks _ 999 p m (by decide) hp.checks.1 hp.checks.2.1
      hp.checks.2.2]
    show (MockRepository.Update 999 p m).1 = _
    simp [MockRepository.Update, hz]

theorem PostgresRepository.Update_Delete_not_found_witness :
    testProduct.Valid ∧
    (∃ res, (noRowDB.Exec PostgresRepository.updateQuery
        [SqlValue.text testProduct.Name, SqlValue.text testProduct.Description,
         SqlValue.float testProduct.Price, SqlValue.int testProduct.Quantity,
         SqlValue.int 999] ()).1 = Except.ok res ∧
      res.RowsAffected = Except.ok 0) ∧
    ((New (NewPostgresRepository noRowDB).asRepository).Update 999 testProduct ()).1
      = some (errors.New "product not found") ∧
    NewMockRepository.products.get 999 = none ∧
    (mockService.Update 999 testProduct NewMockRepository).1
      = some (errors.New "product not found") :=
  have h := PostgresRepository.Update_Delete_not_found (NewPostgresRepository noRowDB) 999
    testProduct () NewMockRepository
  ⟨by decide, ⟨_, rfl, rfl⟩, h.2.2.1 (by decide) ⟨_, rfl, rfl⟩, rfl,
   h.2.2.2.1 (by decide) rfl⟩

/-! ## C10 -/

/-- C10: `PostgresRepository.GetByID` returns a nil product and the error
"product not found" exactly when the query selected no row (`Scan` gave `sql.ErrNoRows`);
any other driver or scan error comes back unchanged with a nil product; otherwise the
result is a product whose five fields are the five scanned column values, with a nil
error. -/
theorem PostgresRepository.GetByID_results {σ : Type} (r : PostgresRepository σ) (id : Int)
    (s : σ) :
    ((r.db.QueryRow PostgresRepository.getByIDQuery [SqlValue.int id] s).1.ScanProduct
        = Except.error DriverError.ErrNoRows →
      r.GetByID id s = ((none, some (errors.New "product not found")),
        (r.db.QueryRow PostgresRepository.getByIDQuery [SqlValue.int id] s).2)) ∧
    (∀ e, e ≠ DriverError.ErrNoRows →
      (r.db.QueryRow PostgresRepository.getByIDQuery [SqlValue.int id] s).1.ScanProduct
        = Except.error e →
      r.GetByID id s = ((none, some (GoError.sql e)),
        (r.db.QueryRow PostgresRepository.getByIDQuery [SqlValue.int id] s).2)) ∧
    (∀ (a : Int) (n d : String) (x : Float64) (k : Int),
      (r.db.QueryRow PostgresRepository.getByIDQuery [SqlValue.int id] s).1.ScanProduct
        = Except.ok (a, n, d, x, k) →
      r.GetByID id s
        = ((some { ID := a, Name := n, Description := d, Price := x, Quantity := k }, none),
          (r.db.QueryRow PostgresRepository.getByIDQuery [SqlValue.int id] s).2)) ∧
    ((r.GetByID id s).1.2 = some (errors.New "product not found") ↔
      (r.db.QueryRow PostgresRepository.getByIDQuery [SqlValue.int id] s).1.ScanProduct
        = Except.error DriverError.ErrNoRows) ∧
    (errors.New "product not found").Error = "product not found" := by
  simp only [PostgresRepository.GetByID]
  generalize r.db.QueryRow PostgresRepository.getByIDQuery [SqlValue.int id] s = q
  obtain ⟨row, s1⟩ := q
  cases hq : row.ScanProduct with
  | error e =>
    by_cases he : e = DriverError.ErrNoRows
    · subst he
      simp only [errors.New, GoError.Error, if_true, true_and, and_true, true_implies]
      exact ⟨fun e1 h1 h2 => absurd (Except.error.inj h2).symm h1, fun _ _ _ _ _ h => (nomatch h)⟩
    · simp [errors.New, GoError.Error, he]
  | ok c =>
    obtain ⟨a, n, d, x, k⟩ := c
    simp [errors.New, GoError.Error, PostgresRepository.productOfColumns]

theorem PostgresRepository.GetByID_results_witness :
    ((noRowDB.QueryRow PostgresRepository.getByIDQuery [SqlValue.int 7] ()).1.ScanProduct
        = Except.error DriverError.ErrNoRows) ∧
    (NewPostgresRepository noRowDB).GetByID 7 ()
      = ((none, some (errors.New "product not found")), ()) ∧
    (DriverError.Other "connection refused" ≠ DriverError.ErrNoRows) ∧
    (NewPostgresRepository
        (stubDB { ScanID := Except.ok 1,
                  ScanProduct := Except.error (DriverError.Other "connection refused") }
          (Except.error (DriverError.Other "connection refused"))
          (Except.error (DriverError.Other "connection refused")))).GetByID 7 ()
      = ((none, some (GoError.sql (DriverError.Other "connection refused"))), ()) ∧
    (NewPostgresRepository
        (stubDB { ScanID := Except.ok 7,
                  ScanProduct := Except.ok (7, "Widget", "", testProduct.Price, 5) }
          (Except.ok { RowsAffected := Except.ok 1 }) (Except.ok []))).GetByID 7 ()
      = ((some { ID := 7, Name := "Widget", Description := "", Price := testProduct.Price,
                 Quantity := 5 }, none), ()) :=
  ⟨rfl,
   (PostgresRepository.GetByID_results (NewPostgresRepository noRowDB) 7 ()).1 rfl,
   by decide,
   (PostgresRepository.GetByID_results (NewPostgresRepository
        (stubDB { ScanID := Except.ok 1,
                  ScanProduct := Except.error (DriverError.Other "connection refused") }
          (Except.error (DriverError.Other "connection refused"))
          (Except.error (DriverError.Other "connection refused")))) 7 ()).2.1 _
      (by decide) rfl,
   (PostgresRepository.GetByID_results (NewPostgresRepository
        (stubDB { ScanID := Except.ok 7,
                  ScanProduct := Except.ok (7, "Widget", "", testProduct.Price, 5) }
          (Except.ok { RowsAffected := Except.ok 1 }) (Except.ok []))) 7 ()).2.2.1
      7 "Widget" "" testProduct.Price 5 rfl⟩

/-! ## helper lemmas on listing -/

theorem Service.checks_of_Create_success {σ : Type} (svc : Service σ) (p : Product) (s : σ)
    (h : (svc.Create p s).1.2 = none) :
    p.Name ≠ "" ∧ p.Price.le Float64.zero = false ∧ ¬ p.Quantity < 0 := by
  by_cases h1 : p.Name = ""
  · simp [Service.Create, h1] at h
  by_cases h2 : p.Price.le Float64.zero = true
  · simp [Service.Create, h1, h2] at h
  by_cases h3 : p.Quantity < 0
  · simp [Service.Create, h1, h2, h3] at h
  · exact ⟨h1, by simpa using h2, h3⟩

theorem PostgresRepository.productOfColumns_columns (p : Product) :
    PostgresRepository.productOfColumns p.columns = p := rfl

theorem PostgresRepository.scanRows_ok (cs : List ProductColumns) (acc : List Product) :
    PostgresRepository.scanRows (cs.map Except.ok) acc
      = (acc ++ cs.map PostgresRepository.productOfColumns, none) := by
  induction cs generalizing acc with
  | nil => simp [PostgresRepository.scanRows]
  | cons c cs ih => simp [PostgresRepository.scanRows, ih]

theorem PostgresRepository.GetAll_of_rows {σ : Type} (r : PostgresRepository σ) (s : σ)
    (cs : List ProductColumns)
    (h : (r.db.Query PostgresRepository.getAllQuery [] s).1 = Except.ok (cs.map Except.ok)) :
    (r.GetAll s).1 = (cs.map PostgresRepository.productOfColumns, none) := by
  simp only [PostgresRepository.GetAll, h, PostgresRepository.scanRows_ok]
  simp

theorem tableService_GetAll (t : Table) :
    tableService.GetAll t = ((t.rows.insertionSort Product.idLE, none), t) := by
  have hq : (tableDB.Query PostgresRepository.getAllQuery [] t)
      = (Except.ok (((t.rows.insertionSort Product.idLE).map Product.columns).map Except.ok),
          t) := by
    simp [tableDB]
  show (NewPostgresRepository tableDB).GetAll t = _
  have h1 := PostgresRepository.GetAll_of_rows (NewPostgresRepository tableDB) t
    ((t.rows.insertionSort Product.idLE).map Product.columns) (by rw [NewPostgresRepository, hq])
  have h2 : ((NewPostgresRepository tableDB).GetAll t).2 = t := by
    simp only [PostgresRepository.GetAll, NewPostgresRepository, hq]
  refine Prod.ext ?_ h2
  rw [h1]
  simp [List.map_map, Function.comp_def, PostgresRepository.productOfColumns_columns]

/-! ## C11 -/

/-- C11: `GetAll` on an empty store returns the empty sequence (length 0) and a nil error:
at the SQL repository whenever the query succeeds with zero rows, through `Service.GetAll`
over it, on the empty table-backed store, and through `Service.GetAll` over the empty
in-memory repository whatever the traversal order of its map. -/
theorem Service.GetAll_empty_store {σ : Type} (r : PostgresRepository σ) (s : σ)
    (iter : ProductMap → ProductMap) :
    ((r.db.Query PostgresRepository.getAllQuery [] s).1 = Except.ok [] →
      (r.GetAll s).1 = ([], none) ∧ ((New r.asRepository).GetAll s).1 = ([], none)) ∧
    (tableService.GetAll Table.empty).1 = ([], none) ∧
    ((iter []).Perm [] →
      ((New (MockRepository.asRepositoryIn iter)).GetAll NewMockRepository).1 = ([], none)) ∧
    (mockService.GetAll NewMockRepository).1 = ([], none) ∧
    ([] : List Product).length = 0 := by
  refine ⟨fun h => ?_, ?_, fun h => ?_, rfl, rfl⟩
  · have := PostgresRepository.GetAll_of_rows r s [] (by simpa using h)
    exact ⟨by simpa using this, by simpa [Service.GetAll, New] using this⟩
  · rw [tableService_GetAll]; rfl
  · show (MockRepository.GetAllIn iter NewMockRepository).1 = _
    simp [MockRepository.GetAllIn, NewMockRepository, List.Perm.eq_nil h]

theorem Service.GetAll_empty_store_witness :
    (noRowDB.Query PostgresRepository.getAllQuery [] ()).1 = Except.ok [] ∧
    ((NewPostgresRepository noRowDB).GetAll ()).1 = ([], none) ∧
    ((New (NewPostgresRepository noRowDB).asRepository).GetAll ()).1 = ([], none) ∧
    (List.reverse ([] : ProductMap)).Perm [] ∧
    ((New (MockRepository.asRepositoryIn List.reverse)).GetAll NewMockRepository).1
      = ([], none) :=
  have h := Service.GetAll_empty_store (NewPostgresRepository noRowDB) () List.reverse
  ⟨rfl, (h.1 rfl).1, (h.1 rfl).2, List.Perm.nil, h.2.2.1 List.Perm.nil⟩

/-! ## C13 -/

/-- C13: `GET /products/{id}` is routed to the handler `GetByID` with the path id; when
the id does not parse as an integer (as "abc" and "invalid" do not) the handler answers
400 and, run over a call-logging use case, leaves store state and call log untouched; for
a parseable id it answers 400 when the use case reports a validation error, 404 when it
reports not-found, and 200 with the product payload on success. -/
theorem ProductHandler.GetByID_statuses {σ : Type} (uc : UseCase σ) (other : Nat)
    (idParam : String) (s : σ) (log : List UseCaseCall) :
    (idParam ≠ "" →
      NewRouter "GET" ["products", idParam] = some (Endpoint.GetByID idParam)) ∧
    (parseID idParam = none →
      (NewProductHandler uc.traced).GetByID other idParam (s, log)
        = ((400, none), (s, log))) ∧
    (∀ id, parseID idParam = some id →
      (∀ e, (uc.GetByID id s).1.2 = some e → e.kind = ErrorKind.ValidationError →
        ((NewProductHandler uc).GetByID other idParam s).1 = (400, none)) ∧
      (∀ e, (uc.GetByID id s).1.2 = some e → e.kind = ErrorKind.NotFound →
        ((NewProductHandler uc).GetByID other idParam s).1 = (404, none)) ∧
      ((uc.GetByID id s).1.2 = none →
        ((NewProductHandler uc).GetByID other idParam s).1
          = (200, (uc.GetByID id s).1.1))) ∧
    parseID "abc" = none ∧ parseID "invalid" = none := by
  refine ⟨fun h => by simp [NewRouter, h], fun h => ?_, fun id h => ⟨fun e he hk => ?_,
    fun e he hk => ?_, fun he => ?_⟩, by decide, by decide⟩
  · simp [ProductHandler.GetByID, h]
  · simp [ProductHandler.GetByID, NewProductHandler, h, he, hk]
  · simp [ProductHandler.GetByID, NewProductHandler, h, he, hk]
  · simp [ProductHandler.GetByID, NewProductHandler, h, he]

theorem ProductHandler.GetByID_statuses_witness :
    ("abc" ≠ "" ∧ NewRouter "GET" ["products", "abc"] = some (Endpoint.GetByID "abc")) ∧
    (parseID "abc" = none ∧
      (NewProductHandler mockService.asUseCase.traced).GetByID 500 "abc"
          (NewMockRepository, []) = ((400, none), (NewMockRepository, []))) ∧
    (parseID "0" = some 0 ∧
      (mockService.asUseCase.GetByID 0 NewMockRepository).1.2
        = some (errors.New "invalid id") ∧
      (errors.New "invalid id").kind = ErrorKind.ValidationError ∧
      (mockHandler.GetByID 500 "0" NewMockRepository).1 = (400, none)) ∧
    (parseID "999" = some 999 ∧
      (mockService.asUseCase.GetByID 999 NewMockRepository).1.2
        = some (errors.New "product not found") ∧
      (errors.New "product not found").kind = ErrorKind.NotFound ∧
      (mockHandler.GetByID 500 "999" NewMockRepository).1 = (404, none)) ∧
    (parseID "1" = some 1 ∧
      (mockService.asUseCase.GetByID 1
        (mockService.Create testProduct NewMockRepository).2).1.2 = none ∧
      (mockHandler.GetByID 500 "1" (mockService.Create testProduct NewMockRepository).2).1
        = (200, some { testProduct with ID := 1 })) :=
  ⟨⟨by decide,
    (ProductHandler.GetByID_statuses mockService.asUseCase 500 "abc" NewMockRepository
      []).1 (by decide)⟩,
   ⟨by decide,
    (ProductHandler.GetByID_statuses mockService.asUseCase 500 "abc" NewMockRepository
      []).2.1 (by decide)⟩,
   ⟨by decide, by decide, by decide,
    ((ProductHandler.GetByID_statuses mockService.asUseCase 500 "0" NewMockRepository
      []).2.2.1 0 (by decide)).1 (errors.New "invalid id") (by decide) (by decide)⟩,
   ⟨by decide, by decide, by decide,
    ((ProductHandler.GetByID_statuses mockService.asUseCase 500 "999" NewMockRepository
      []).2.2.1 999 (by decide)).2.1 (errors.New "product not found") (by decide)
      (by decide)⟩,
   ⟨by decide, by decide,
    ((ProductHandler.GetByID_statuses mockService.asUseCase 500 "1"
      (mockService.Create testProduct NewMockRepository).2 []).2.2.1 1 (by decide)).2.2
      (by decide)⟩⟩

/-! ## C14 -/

/-- C14: the two handlers map a not-found error differently. For `PUT /products/{id}`
every error of the use case, validation or not-found, is answered with 400; for
`DELETE /products/{id}` a not-found error is answered with 404 and a validation error
with 400. -/
theorem ProductHandler.Update_Delete_error_statuses {σ : Type} (uc : UseCase σ)
    (other : Nat) (idParam : String) (id : Int) (p : Product) (s : σ)
    (hid : parseID idParam = some id) :
    (∀ e, (uc.Update id { p with ID := id } s).1 = some e →
      ((NewProductHandler uc).Update idParam (some p) s).1 = 400) ∧
    (∀ e, (uc.Delete id s).1 = some e → e.kind = ErrorKind.NotFound →
      ((NewProductHandler uc).Delete other idParam s).1 = 404) ∧
    (∀ e, (uc.Delete id s).1 = some e → e.kind = ErrorKind.ValidationError →
      ((NewProductHandler uc).Delete other idParam s).1 = 400) ∧
    (errors.New "product not found").kind = ErrorKind.NotFound ∧
    (∀ e ∈ validationErrors, e.kind = ErrorKind.ValidationError) := by
  refine ⟨fun e he => ?_, fun e he hk => ?_, fun e he hk => ?_, by decide, by decide⟩
  · simp [ProductHandler.Update, NewProductHandler, hid, he]
  · simp [ProductHandler.Delete, NewProductHandler, hid, he, hk]
  · simp [ProductHandler.Delete, NewProductHandler, hid, he, hk]

theorem ProductHandler.Update_Delete_error_statuses_witness :
    parseID "999" = some 999 ∧
    (mockService.asUseCase.Update 999 { testProduct with ID := 999 } NewMockRepository).1
      = some (errors.New "product not found") ∧
    (mockHandler.Update "999" (some testProduct) NewMockRepository).1 = 400 ∧
    (mockService.asUseCase.Delete 999 NewMockRepository).1
      = some (errors.New "product not found") ∧
    (mockHandler.Delete 500 "999" NewMockRepository).1 = 404 ∧
    parseID "0" = some 0 ∧
    (mockService.asUseCase.Delete 0 NewMockRepository).1 = some (errors.New "invalid id") ∧
    (mockHandler.Delete 500 "0" NewMockRepository).1 = 400 :=
  ⟨by decide, by decide,
   (ProductHandler.Update_Delete_error_statuses mockService.asUseCase 500 "999" 999
     testProduct NewMockRepository (by decide)).1 (errors.New "product not found")
     (by decide),
   by decide,
   (ProductHandler.Update_Delete_error_statuses mockService.asUseCase 500 "999" 999
     testProduct NewMockRepository (by decide)).2.1 (errors.New "product not found")
     (by decide) (by decide),
   by decide, by decide,
   (ProductHandler.Update_Delete_error_statuses mockService.asUseCase 500 "0" 0
     testProduct NewMockRepository (by decide)).2.2.1 (errors.New "invalid id")
     (by decide) (by decide)⟩

theorem PostgresRepository.Update_outcome {σ : Type} (r : PostgresRepository σ) (id : Int)
    (p : Product) (s : σ) :
    (r.Update id p s).1 = some (errors.New "product not found") ∨
    (r.Update id p s).1 = none ∨
    ∃ d, (r.Update id p s).1 = some (GoError.sql d) := by
  simp only [PostgresRepository.Update]
  generalize r.db.Exec _ _ s = x
  obtain ⟨x1, x2⟩ := x
  cases x1 with
  | error e => exact Or.inr (Or.inr ⟨e, rfl⟩)
  | ok res =>
    cases hra : res.RowsAffected with
    | error e => exact Or.inr (Or.inr ⟨e, by simp [hra]⟩)
    | ok n =>
      by_cases hn : n = 0
      · exact Or.inl (by simp [hra, hn])
      · exact Or.inr (Or.inl (by simp [hra, hn]))

/-! ## C15 -/

/-- C15, the claim refuted: `Service.Update(1, p)` with a valid `p` whose `ID` is `7`
hands the repository a record whose `ID` is still `7`, not `1`. -/
theorem Service.Update_hands_caller_ID :
    (0 : Int) < 1 ∧ ({ testProduct with ID := 7 } : Product).Valid ∧
    ((New (traced MockRepository.asRepository)).Update 1 { testProduct with ID := 7 }
        ((mockService.Create testProduct NewMockRepository).2, [])).2.2
      = [RepoCall.Update 1 { testProduct with ID := 7 }] ∧
    ({ testProduct with ID := 7 } : Product).ID ≠ 1 := by
  decide

/-- C15 as amended: on update the id argument travels next to the record. For every
`id > 0` and every valid `p`, `Service.Update(id, p)` makes exactly one repository call,
`Repository.Update(id, p)`, with the record `p` as the caller built it, its `ID` field
included. The id is written onto the record inside the in-memory repository: the record
`MockRepository.Update` stores under an existing `id` is `p` with `ID = id`. -/
theorem Service.Update_hands_record_unchanged {σ : Type} (repo : Repository σ) (id : Int)
    (p : Product) (s : σ) (log : List RepoCall) (hid : 0 < id) (hp : p.Valid) :
    ((New (traced repo)).Update id p (s, log)).2.2 = log ++ [RepoCall.Update id p] ∧
    (New (traced repo)).Update id p (s, log) = (traced repo).Update id p (s, log) ∧
    (∀ (m : MockRepository) (old : Product), m.products.get id = some old →
      (MockRepository.Update id p m).2.products.get id = some { p with ID := id }) := by
  have h := Service.Update_of_checks (New (traced repo)) id p (s, log) hid hp.checks.1
    hp.checks.2.1 hp.checks.2.2
  refine ⟨?_, h, fun m old hm => ?_⟩
  · rw [h]; rfl
  · simp [MockRepository.Update, hm, ProductMap.get_set_self]

theorem Service.Update_hands_record_unchanged_witness :
    (0 : Int) < 1 ∧ ({ testProduct with ID := 7 } : Product).Valid ∧
    ((New (traced MockRepository.asRepository)).Update 1 { testProduct with ID := 7 }
        ((mockService.Create testProduct NewMockRepository).2, [])).2.2
      = [] ++ [RepoCall.Update 1 { testProduct with ID := 7 }] ∧
    (MockRepository.Update 1 { testProduct with ID := 7 }
        (mockService.Create testProduct NewMockRepository).2).2.products.get 1
      = some { testProduct with ID := 1 } :=
  have h := Service.Update_hands_record_unchanged MockRepository.asRepository 1
    { testProduct with ID := 7 } (mockService.Create testProduct NewMockRepository).2 []
    (by decide) (by decide)
  ⟨by decide, by decide, h.1,
   h.2.2 (mockService.Create testProduct NewMockRepository).2 { testProduct with ID := 1 }
     (by decide)⟩

/-! ## C16 -/

/-- C16: rejected writes never reach the store. Over a call-logging wrapper of any
repository that does not itself return one of the four validation errors, whenever
`Service.Create` or `Service.Update` returns "invalid id", "name is required",
"price must be greater than zero" or "quantity must be non-negative", the store state and
the call log are those from before the call, and `Create` returns id `0`. Both
repositories of the program, the in-memory one and the SQL one over any database handle,
are such repositories. -/
theorem Service.rejected_writes_never_reach_store :
    (∀ (σ : Type) (repo : Repository σ), repo.RaisesNoValidationError →
      ∀ (id : Int) (p : Product) (s : σ) (log : List RepoCall),
        (∀ e ∈ validationErrors,
          ((New (traced repo)).Create p (s, log)).1.2 = some e →
          (New (traced repo)).Create p (s, log) = ((0, some e), (s, log))) ∧
        (∀ e ∈ validationErrors,
          ((New (traced repo)).Update id p (s, log)).1 = some e →
          (New (traced repo)).Update id p (s, log) = (some e, (s, log)))) ∧
    MockRepository.asRepository.RaisesNoValidationError ∧
    (∀ (τ : Type) (db : DB τ), (NewPostgresRepository db).asRepository.RaisesNoValidationError) ∧
    validationErrors.map GoError.Error
      = ["invalid id", "name is required", "price must be greater than zero",
         "quantity must be non-negative"] := by
  refine ⟨fun σ repo hrepo id p s log => ⟨fun e he h => ?_, fun e he h => ?_⟩,
    ⟨fun p s e he => ?_, fun id p s e he => ?_⟩,
    fun τ db => ⟨fun p s e he => ?_, fun id p s e he => ?_⟩, rfl⟩
  · by_cases h1 : p.Name = ""
    · simp only [Service.Create, h1, if_true] at h ⊢
      rw [Option.some.inj h]
    by_cases h2 : p.Price.le Float64.zero = true
    · simp only [Service.Create, h1, h2, if_true, if_false] at h ⊢
      rw [Option.some.inj h]
    by_cases h3 : p.Quantity < 0
    · simp only [Service.Create, h1, h2, h3, if_true, if_false, Bool.false_eq_true] at h ⊢
      rw [Option.some.inj h]
    · rw [Service.Create_of_checks _ p _ h1 (by simpa using h2) h3] at h
      exact absurd h (hrepo.1 p s e he)
  · by_cases h0 : id ≤ 0
    · simp only [Service.Update, h0, if_true] at h ⊢
      rw [Option.some.inj h]
    by_cases h1 : p.Name = ""
    · simp only [Service.Update, h0, h1, if_true, if_false] at h ⊢
      rw [Option.some.inj h]
    by_cases h2 : p.Price.le Float64.zero = true
    · simp only [Service.Update, h0, h1, h2, if_true, if_false] at h ⊢
      rw [Option.some.inj h]
    by_cases h3 : p.Quantity < 0
    · simp only [Service.Update, h0, h1, h2, h3, if_true, if_false, Bool.false_eq_true] at h ⊢
      rw [Option.some.inj h]
    · rw [Service.Update_of_checks _ id p _ (not_le.mp h0) h1 (by simpa using h2) h3] at h
      exact absurd h (hrepo.2 id p s e he)
  · intro h
    simp [MockRepository.asRepository, MockRepository.Create] at h
  · intro h
    have he2 : e ≠ errors.New "product not found" := by
      intro hc; subst hc; revert he; decide
    change (MockRepository.Update id p s).1 = some e at h
    unfold MockRepository.Update at h
    cases hg : s.products.get id with
    | none =>
      simp only [hg] at h
      exact he2 (Option.some.inj h).symm
    | some old => simp [hg] at h
  · intro h
    change ((NewPostgresRepository db).Create p s).1.2 = some e at h
    simp only [PostgresRepository.Create] at h
    generalize (NewPostgresRepository db).db.QueryRow _ _ s = q at h
    cases hq : q.1.ScanID with
    | error d =>
      simp only [hq] at h
      rw [← Option.some.inj h] at he
      revert he; simp [validationErrors, errors.New]
    | ok v => simp [hq] at h
  · intro h
    have he2 : e ≠ errors.New "product not found" := by
      intro hc; subst hc; revert he; decide
    have hsql : ∀ d, e ≠ GoError.sql d := by
      intro d hc; subst hc; revert he; simp [validationErrors, errors.New]
    change ((NewPostgresRepository db).Update id p s).1 = some e at h
    have hout := (PostgresRepository.Update_outcome (NewPostgresRepository db) id p s)
    rcases hout with hx | hx | hx
    · exact he2 (Option.some.inj (hx.symm.trans h)).symm
    · rw [hx] at h; cases h
    · obtain ⟨d, hd⟩ := hx
      exact hsql d (Option.some.inj (hd.symm.trans h)).symm

theorem Service.rejected_writes_never_reach_store_witness :
    MockRepository.asRepository.RaisesNoValidationError ∧
    errors.New "name is required" ∈ validationErrors ∧
    ((New (traced MockRepository.asRepository)).Create { testProduct with Name := "" }
        (NewMockRepository, [])).1.2 = some (errors.New "name is required") ∧
    (New (traced MockRepository.asRepository)).Create { testProduct with Name := "" }
        (NewMockRepository, [])
      = ((0, some (errors.New "name is required")), (NewMockRepository, [])) ∧
    errors.New "invalid id" ∈ validationErrors ∧
    ((New (traced MockRepository.asRepository)).Update 0 testProduct
        (NewMockRepository, [])).1 = some (errors.New "invalid id") ∧
    (New (traced MockRepository.asRepository)).Update 0 testProduct (NewMockRepository, [])
      = (some (errors.New "invalid id"), (NewMockRepository, [])) :=
  have h := Service.rejected_writes_never_reach_store
  ⟨h.2.1, by decide, by decide,
   (h.1 MockRepository MockRepository.asRepository h.2.1 0 { testProduct with Name := "" }
     NewMockRepository []).1 (errors.New "name is required") (by decide) (by decide),
   by decide, by decide,
   (h.1 MockRepository MockRepository.asRepository h.2.1 0 testProduct
     NewMockRepository []).2 (errors.New "invalid id") (by decide) (by decide)⟩

/-! ## C17 -/

/-- C17: the `ID` a caller puts in the record has no influence on persistence. Over a
statement-recording wrapper of any database handle, `PostgresRepository.Create` issues the
INSERT statement with the four parameters name, description, price, quantity, and
`PostgresRepository.Update` issues the UPDATE statement with those four and the id
argument; replacing the record's `ID` by any other value changes neither the statement
recorded nor the result. `Service.Create` and `Service.Update` reject a record and the
same record with another `ID` with the same error, or accept both. -/
theorem PostgresRepository.record_ID_has_no_influence {σ τ : Type} (db : DB σ)
    (repo : Repository τ) (p : Product) (i id : Int) (s : σ) (log : List SqlCall) (t : τ)
    (rlog : List RepoCall) :
    ((NewPostgresRepository (recording db)).Create p (s, log)).2.2
      = log ++ [(PostgresRepository.createQuery,
          [SqlValue.text p.Name, SqlValue.text p.Description, SqlValue.float p.Price,
           SqlValue.int p.Quantity])] ∧
    (NewPostgresRepository (recording db)).Create { p with ID := i } (s, log)
      = (NewPostgresRepository (recording db)).Create p (s, log) ∧
    ((NewPostgresRepository (recording db)).Update id p (s, log)).2.2
      = log ++ [(PostgresRepository.updateQuery,
          [SqlValue.text p.Name, SqlValue.text p.Description, SqlValue.float p.Price,
           SqlValue.int p.Quantity, SqlValue.int id])] ∧
    (NewPostgresRepository (recording db)).Update id { p with ID := i } (s, log)
      = (NewPostgresRepository (recording db)).Update id p (s, log) ∧
    (∀ e : GoError,
      (New (traced repo)).Create { p with ID := i } (t, rlog) = ((0, some e), (t, rlog)) ↔
        (New (traced repo)).Create p (t, rlog) = ((0, some e), (t, rlog))) ∧
    (∀ e : GoError,
      (New (traced repo)).Update id { p with ID := i } (t, rlog) = (some e, (t, rlog)) ↔
        (New (traced repo)).Update id p (t, rlog) = (some e, (t, rlog))) := by
  refine ⟨?_, rfl, ?_, rfl, fun e => ?_, fun e => ?_⟩
  · simp only [PostgresRepository.Create, NewPostgresRepository, recording]
    cases (db.QueryRow PostgresRepository.createQuery
      [SqlValue.text p.Name, SqlValue.text p.Description, SqlValue.float p.Price,
       SqlValue.int p.Quantity] s).1.ScanID <;> rfl
  · simp only [PostgresRepository.Update, NewPostgresRepository, recording]
    generalize db.Exec _ _ s = x
    obtain ⟨x1, x2⟩ := x
    cases x1 with
    | error d => rfl
    | ok res =>
      cases hra : res.RowsAffected with
      | error d => simp [hra]
      | ok n => by_cases hn : n = 0 <;> simp [hra, hn]
  · by_cases h1 : p.Name = ""
    · simp [Service.Create, h1]
    by_cases h2 : p.Price.le Float64.zero = true
    · simp [Service.Create, h1, h2]
    by_cases h3 : p.Quantity < 0
    · simp [Service.Create, h1, h2, h3]
    · simp [Service.Create, h1, h2, h3, New, traced, Prod.ext_iff]
  · by_cases h0 : id ≤ 0
    · simp [Service.Update, h0]
    by_cases h1 : p.Name = ""
    · simp [Service.Update, h0, h1]
    by_cases h2 : p.Price.le Float64.zero = true
    · simp [Service.Update, h0, h1, h2]
    by_cases h3 : p.Quantity < 0
    · simp [Service.Update, h0, h1, h2, h3]
    · simp [Service.Update, h0, h1, h2, h3, New, traced, Prod.ext_iff]

/-! ## helper lemmas on the mock with pointers -/

theorem PointerMap.lookup_set_self (m : PointerMap) (k : Int) (v : Nat) :
    PointerMap.get (PointerMap.set m k v) k = some v := by
  induction m with
  | nil => simp [PointerMap.set, PointerMap.get]
  | cons hd tl ih =>
    obtain ⟨a, b⟩ := hd
    by_cases h : a = k
    · simp [PointerMap.set, PointerMap.get, h]
    · simp [PointerMap.set, PointerMap.get, h, ih]

theorem PointerMap.lookup_set_of_ne (m : PointerMap) (k j : Int) (v : Nat) (hj : j ≠ k) :
    PointerMap.get (PointerMap.set m k v) j = PointerMap.get m j := by
  induction m with
  | nil => simp [PointerMap.set, PointerMap.get, Ne.symm hj]
  | cons hd tl ih =>
    obtain ⟨a, b⟩ := hd
    by_cases h : a = k
    · subst h
      simp [PointerMap.set, PointerMap.get, Ne.symm hj]
    · by_cases h2 : a = j
      · subst h2
        simp [PointerMap.set, PointerMap.get, h]
      · simp [PointerMap.set, PointerMap.get, h, h2, ih]

theorem PointerMap.lookup_delete_self (m : PointerMap) (k : Int) :
    PointerMap.get (PointerMap.delete m k) k = none := by
  induction m with
  | nil => simp [PointerMap.delete, PointerMap.get]
  | cons hd tl ih =>
    obtain ⟨a, b⟩ := hd
    by_cases h : a = k
    · simp [PointerMap.delete, h, ih]
    · simp [PointerMap.delete, PointerMap.get, h, ih]

theorem PointerMap.lookup_delete_of_ne (m : PointerMap) (k j : Int) (hj : j ≠ k) :
    PointerMap.get (PointerMap.delete m k) j = PointerMap.get m j := by
  induction m with
  | nil => simp [PointerMap.delete, PointerMap.get]
  | cons hd tl ih =>
    obtain ⟨a, b⟩ := hd
    by_cases h : a = k
    · subst h
      simp [PointerMap.delete, PointerMap.get, Ne.symm hj, ih]
    · by_cases h2 : a = j
      · subst h2
        simp [PointerMap.delete, PointerMap.get, h]
      · simp [PointerMap.delete, PointerMap.get, h, h2, ih]

theorem PointerMap.set_of_get_none (m : PointerMap) (k : Int) (v : Nat)
    (h : PointerMap.get m k = none) : PointerMap.set m k v = m ++ [(k, v)] := by
  induction m with
  | nil => rfl
  | cons hd tl ih =>
    obtain ⟨a, b⟩ := hd
    by_cases hk : a = k
    · simp [PointerMap.get, hk] at h
    · simp only [PointerMap.get, hk, if_false] at h
      simp [PointerMap.set, hk, ih h]

theorem Heap.write_same (h : Heap) (p : Nat) (v : Product) : h.write p v p = v := by
  simp [Heap.write]

theorem Heap.write_of_ne (h : Heap) (p c : Nat) (v : Product) (hc : c ≠ p) :
    h.write p v c = h c := by
  simp [Heap.write, hc]

theorem PointerMock.WellFormed.afterCreate {m : PointerMock} (h : m.WellFormed) (p : Nat) :
    (PointerMock.Create p m).2.WellFormed := by
  refine ⟨by simp only [PointerMock.Create]; have := h.1; omega, fun k v hk => ?_⟩
  simp only [PointerMock.Create] at hk ⊢
  by_cases hkn : k = m.nextID
  · subst hkn; have := h.1; omega
  · rw [PointerMap.lookup_set_of_ne _ _ _ _ hkn] at hk
    have := h.2 k v hk
    omega

theorem PointerMock.WellFormed.afterUpdate {m : PointerMock} (h : m.WellFormed) (id : Int)
    (p : Nat) : (PointerMock.Update id p m).2.WellFormed := by
  unfold PointerMock.Update
  cases hg : m.products.get id with
  | none => exact h
  | some old =>
    refine ⟨h.1, fun k v hk => ?_⟩
    simp only at hk ⊢
    by_cases hkn : k = id
    · subst hkn; exact h.2 k old hg
    · rw [PointerMap.lookup_set_of_ne _ _ _ _ hkn] at hk
      exact h.2 k v hk

theorem PointerMock.WellFormed.afterDelete {m : PointerMock} (h : m.WellFormed) (id : Int) :
    (PointerMock.Delete id m).2.WellFormed := by
  unfold PointerMock.Delete
  cases hg : m.products.get id with
  | none => exact h
  | some old =>
    refine ⟨h.1, fun k v hk => ?_⟩
    simp only at hk ⊢
    by_cases hkn : k = id
    · subst hkn; rw [PointerMap.lookup_delete_self] at hk; cases hk
    · rw [PointerMap.lookup_delete_of_ne _ _ _ hkn] at hk
      exact h.2 k v hk

theorem PointerMock.GetByID_keeps_state (id : Int) (m : PointerMock) :
    (PointerMock.GetByID id m).2 = m := by
  unfold PointerMock.GetByID
  cases m.products.get id <;> rfl

theorem PointerMock.Reachable.isWellFormed {m : PointerMock} (h : m.Reachable) :
    m.WellFormed := by
  induction h with
  | empty heap =>
    exact ⟨le_refl _, fun k v hk => by simp [NewPointerMock, PointerMap.get] at hk⟩
  | write p v _ ih => exact ih
  | Create iter p _ ih =>
    unfold PointerMock.callCreate Service.Create
    split_ifs
    · exact ih
    · exact ih
    · exact ih
    · exact ih.afterCreate p
  | GetByID iter id _ ih =>
    unfold PointerMock.callGetByID Service.GetByID
    split_ifs
    · exact ih
    · show (PointerMock.GetByID id _).2.WellFormed
      rw [PointerMock.GetByID_keeps_state]; exact ih
  | Update iter id p _ ih =>
    unfold PointerMock.callUpdate Service.Update
    split_ifs
    · exact ih
    · exact ih
    · exact ih
    · exact ih
    · exact ih.afterUpdate id p
  | Delete iter id _ ih =>
    unfold PointerMock.callDelete Service.Delete
    split_ifs
    · exact ih
    · exact ih.afterDelete id
  | GetAll iter _ ih => exact ih

theorem PostgresRepository.Update_statement {σ : Type} (db : DB σ) (id : Int) (v : Product)
    (s : σ) (log : List SqlCall) :
    ((NewPostgresRepository (recording db)).Update id v (s, log)).2.2
      = log ++ [(PostgresRepository.updateQuery,
          [SqlValue.text v.Name, SqlValue.text v.Description, SqlValue.float v.Price,
           SqlValue.int v.Quantity, SqlValue.int id])] := by
  simp only [PostgresRepository.Update, NewPostgresRepository, recording]
  generalize db.Exec _ _ s = x
  obtain ⟨x1, x2⟩ := x
  cases x1 with
  | error d => rfl
  | ok res =>
    cases hra : res.RowsAffected with
    | error d => simp [hra]
    | ok n => by_cases hn : n = 0 <;> simp [hra, hn]

theorem PostgresRepository.GetAll_statement {σ : Type} (db : DB σ) (s : σ)
    (log : List SqlCall) :
    ((NewPostgresRepository (recording db)).GetAll (s, log)).2.2
      = log ++ [(PostgresRepository.getAllQuery, [])] := by
  simp only [PostgresRepository.GetAll, NewPostgresRepository, recording]
  cases (db.Query PostgresRepository.getAllQuery [] s).1 <;> rfl

/-! ## C8 -/

/-- C8, the claim refuted: two structs are created under ids 1 and 2 in the in-memory
repository; `Update(2, p)` with `p` the struct held under id 1 succeeds, and `GetByID(1)`,
which returned a record with `ID` 1 before, returns one with `ID` 2 after: the record under
another id has changed. -/
theorem PointerMock.Update_changes_aliased_record :
    (PointerMock.createAll (fun l => l) [0, 1] (NewPointerMock twoStructs)).2.Reachable ∧
    (PointerMock.createAll (fun l => l) [0, 1] (NewPointerMock twoStructs)).1
      = [(1, none), (2, none)] ∧
    ((PointerMock.createAll (fun l => l) [0, 1] (NewPointerMock twoStructs)).2.heap 0).Valid ∧
    (PointerMock.callGetByID (fun l => l) 1
      (PointerMock.createAll (fun l => l) [0, 1] (NewPointerMock twoStructs)).2).1
        = (some { testProduct with ID := 1 }, none) ∧
    (PointerMock.callUpdate (fun l => l) 2 0
      (PointerMock.createAll (fun l => l) [0, 1] (NewPointerMock twoStructs)).2).1 = none ∧
    (PointerMock.callGetByID (fun l => l) 1
      (PointerMock.callUpdate (fun l => l) 2 0
        (PointerMock.createAll (fun l => l) [0, 1] (NewPointerMock twoStructs)).2).2).1
        = (some { testProduct with ID := 2 }, none) :=
  ⟨PointerMock.Reachable.Create _ 1
      (PointerMock.Reachable.Create _ 0 (PointerMock.Reachable.empty twoStructs)),
   by decide, by decide, by decide, by decide, by decide⟩

/-- C8 as amended: on every state of the in-memory repository reachable from the empty
one, for every id that exists in it and every pointer `p` to a valid struct,
`Update(id, p)` succeeds; `GetByID(id)` then returns a record with id `id` and the name,
description, price and quantity of the struct at `p`; `GetByID` of every other id returns
what it returned before, unless that id holds the very pointer `p`, whose struct the
update has written. `PostgresRepository.Update` issues one statement,
`UPDATE ... WHERE id = $5`, with the four fields and the id as parameters. -/
theorem PointerMock.Update_then_GetByID (iter : PointerMap → PointerMap) (m : PointerMock)
    (hm : m.Reachable) (id : Int) (old : Nat) (hex : m.products.get id = some old)
    (p : Nat) (hq : (m.heap p).Valid) :
    (PointerMock.callUpdate iter id p m).1 = none ∧
    (∃ r, (PointerMock.callGetByID iter id (PointerMock.callUpdate iter id p m).2).1
        = (some r, none) ∧
      r.ID = id ∧ r.Name = (m.heap p).Name ∧ r.Description = (m.heap p).Description ∧
      r.Price = (m.heap p).Price ∧ r.Quantity = (m.heap p).Quantity) ∧
    (∀ j, j ≠ id → m.products.get j ≠ some p →
      (PointerMock.callGetByID iter j (PointerMock.callUpdate iter id p m).2).1
        = (PointerMock.callGetByID iter j m).1) ∧
    (∀ (σ : Type) (db : DB σ) (v : Product) (s : σ) (log : List SqlCall),
      ((NewPostgresRepository (recording db)).Update id v (s, log)).2.2
        = log ++ [("\n\t\tUPDATE products\n\t\tSET name = $1, description = $2, price = $3, quantity = $4\n\t\tWHERE id = $5\n\t",
            [SqlValue.text v.Name, SqlValue.text v.Description, SqlValue.float v.Price,
             SqlValue.int v.Quantity, SqlValue.int id])]) := by
  have hpos : 0 < id := (hm.isWellFormed.2 id old hex).1
  have hu : PointerMock.callUpdate iter id p m = PointerMock.Update id p m :=
    Service.Update_of_checks _ id (m.heap p) m hpos hq.checks.1 hq.checks.2.1 hq.checks.2.2
  have hm2 : PointerMock.Update id p m
      = (none, { m with heap := m.heap.write p { m.heap p with ID := id },
                        products := m.products.set id p }) := by
    simp [PointerMock.Update, hex]
  rw [hu, hm2]
  refine ⟨rfl, ⟨{ m.heap p with ID := id }, ?_, rfl, rfl, rfl, rfl, rfl⟩, fun j hj hp => ?_,
    fun σ db v s log => PostgresRepository.Update_statement db id v s log⟩
  · show ((New (PointerMock.asRepository iter 0)).GetByID id _).1 = _
    rw [Service.GetByID_of_pos _ _ _ hpos]
    show (PointerMock.GetByID id _).1 = _
    simp [PointerMock.GetByID, PointerMap.lookup_set_self, Heap.write_same]
  · show ((New (PointerMock.asRepository iter 0)).GetByID j _).1
      = ((New (PointerMock.asRepository iter 0)).GetByID j m).1
    by_cases hj0 : j ≤ 0
    · simp [Service.GetByID, hj0]
    · rw [Service.GetByID_of_pos _ _ _ (not_le.mp hj0),
        Service.GetByID_of_pos _ _ _ (not_le.mp hj0)]
      show (PointerMock.GetByID j _).1 = (PointerMock.GetByID j m).1
      simp only [PointerMock.GetByID, PointerMap.lookup_set_of_ne _ _ _ _ hj]
      cases hg : m.products.get j with
      | none => rfl
      | some c =>
        have hc : c ≠ p := fun hcp => hp (by rw [hg, hcp])
        simp [Heap.write_of_ne _ _ _ _ hc]

theorem PointerMock.Update_then_GetByID_witness :
    (PointerMock.createAll (fun l => l) [0] (NewPointerMock twoStructs)).2.Reachable ∧
    (PointerMock.createAll (fun l => l) [0] (NewPointerMock twoStructs)).2.products.get 1
      = some 0 ∧
    ((PointerMock.createAll (fun l => l) [0] (NewPointerMock twoStructs)).2.heap 1).Valid ∧
    (PointerMock.callUpdate (fun l => l) 1 1
      (PointerMock.createAll (fun l => l) [0] (NewPointerMock twoStructs)).2).1 = none ∧
    (∃ r, (PointerMock.callGetByID (fun l => l) 1
        (PointerMock.callUpdate (fun l => l) 1 1
          (PointerMock.createAll (fun l => l) [0] (NewPointerMock twoStructs)).2).2).1
          = (some r, none) ∧
      r.ID = 1 ∧ r.Name = "Second" ∧ r.Description = testProduct.Description ∧
      r.Price = testProduct.Price ∧ r.Quantity = testProduct.Quantity) :=
  have h := PointerMock.Update_then_GetByID (fun l => l)
    (PointerMock.createAll (fun l => l) [0] (NewPointerMock twoStructs)).2
    (PointerMock.Reachable.Create _ 0 (PointerMock.Reachable.empty twoStructs)) 1 0
    (by decide) 1 (by decide)
  ⟨PointerMock.Reachable.Create _ 0 (PointerMock.Reachable.empty twoStructs),
   by decide, by decide, h.1, h.2.1⟩

/-! ## helper lemmas on repeated creation -/

theorem PointerMock.get_nextID (m : PointerMock) (h : m.WellFormed) :
    m.products.get m.nextID = none := by
  cases hg : m.products.get m.nextID with
  | none => rfl
  | some v => have := (h.2 _ v hg).2; omega

theorem PointerMock.callCreate_of_success (iter : PointerMap → PointerMap) (p : Nat)
    (m : PointerMock) (hwf : m.WellFormed) (h : (PointerMock.callCreate iter p m).1.2 = none) :
    PointerMock.callCreate iter p m
      = ((m.nextID, none),
         { heap := m.heap.write p { m.heap p with ID := m.nextID },
           products := m.products ++ [(m.nextID, p)],
           nextID := m.nextID + 1 }) := by
  obtain ⟨h1, h2, h3⟩ := Service.checks_of_Create_success _ _ _ h
  unfold PointerMock.callCreate
  rw [Service.Create_of_checks _ _ m h1 h2 h3]
  show PointerMock.Create p m = _
  simp [PointerMock.Create, PointerMap.set_of_get_none _ _ _ (m.get_nextID hwf)]

theorem PointerMock.createAll_length (iter : PointerMap → PointerMap) (ps : List Nat)
    (m : PointerMock) : (PointerMock.createAll iter ps m).1.length = ps.length := by
  induction ps generalizing m with
  | nil => rfl
  | cons p ps ih => simp [PointerMock.createAll, ih]

theorem PointerMock.createAll_spec (iter : PointerMap → PointerMap) (ps : List Nat)
    (m : PointerMock) (hwf : m.WellFormed)
    (h : ∀ r ∈ (PointerMock.createAll iter ps m).1, r.2 = none) :
    (PointerMock.createAll iter ps m).2.products.map Prod.fst
      = m.products.map Prod.fst ++ (PointerMock.createAll iter ps m).1.map Prod.fst ∧
    (∀ i ∈ (PointerMock.createAll iter ps m).1.map Prod.fst, m.nextID ≤ i) ∧
    ((PointerMock.createAll iter ps m).1.map Prod.fst).Pairwise (fun a b => a < b) ∧
    (ps.Nodup → (∀ p ∈ ps, ∀ e ∈ m.products, e.2 ≠ p) → m.Consistent →
      (PointerMock.createAll iter ps m).2.Consistent) := by
  induction ps generalizing m with
  | nil => simp [PointerMock.createAll]
  | cons p ps ih =>
    have hc : (PointerMock.callCreate iter p m).1.2 = none :=
      h _ (by simp [PointerMock.createAll])
    have hcr := PointerMock.callCreate_of_success iter p m hwf hc
    have hwf1 : (PointerMock.callCreate iter p m).2.WellFormed := by
      have h0 := hwf.afterCreate p
      obtain ⟨h1, h2, h3⟩ := Service.checks_of_Create_success _ _ _ hc
      unfold PointerMock.callCreate
      rw [Service.Create_of_checks _ _ m h1 h2 h3]
      exact h0
    simp only [PointerMock.createAll] at h ⊢
    obtain ⟨e1, e2, e3, e4⟩ := ih _ hwf1 (fun r hr => h r (List.mem_cons_of_mem _ hr))
    rw [hcr] at e1 e2 e3 e4 ⊢
    simp only at e1 e2 e3 e4 ⊢
    refine ⟨?_, ?_, ?_, fun hnd hfresh hcons => ?_⟩
    · rw [e1]; simp
    · intro i hi
      simp only [List.map_cons, List.mem_cons] at hi
      rcases hi with hi | hi
      · omega
      · have := e2 i hi
        omega
    · simp only [List.map_cons, List.pairwise_cons]
      refine ⟨fun i hi => ?_, e3⟩
      have := e2 i hi
      omega
    · have hnd2 := List.nodup_cons.mp hnd
      refine e4 hnd2.2 (fun q hq e he => ?_) (fun e he => ?_)
      · simp only [List.mem_append, List.mem_singleton] at he
        rcases he with he | he
        · exact hfresh q (List.mem_cons_of_mem _ hq) e he
        · subst he
          intro hpq
          simp only at hpq
          exact hnd2.1 (hpq ▸ hq)
      · simp only [List.mem_append, List.mem_singleton] at he
        rcases he with he | he
        · have hne : e.2 ≠ p := hfresh p (List.mem_cons_self _ _) e he
          simp only [Heap.write_of_ne _ _ _ _ hne]
          exact hcons e he
        · subst he
          simp [Heap.write_same]

/-! ## C12 -/

/-- C12, the claim refuted for the in-memory repository. Three successful `Create` calls
with three structs on the empty repository, then `GetAll` with the map traversed from its
second entry (a rotation of the entries), list the ids `2, 3, 1`, which is not ascending.
Two successful `Create` calls with one and the same struct return the ids 1 and 2, and
`GetAll` lists the ids `2, 2`: no product carries the created id 1. -/
theorem PointerMock.GetAll_not_ascending :
    (∀ l : PointerMap, (l.rotate 1).Perm l) ∧
    (PointerMock.createAll (fun l => l.rotate 1) [0, 1, 2] (NewPointerMock threeStructs)).1
      = [(1, none), (2, none), (3, none)] ∧
    (PointerMock.callGetAll (fun l => l.rotate 1)
      (PointerMock.createAll (fun l => l.rotate 1) [0, 1, 2]
        (NewPointerMock threeStructs)).2).1.1.map Product.ID = [2, 3, 1] ∧
    ¬ List.Pairwise (fun a b : Int => a < b) [2, 3, 1] ∧
    (PointerMock.createAll (fun l => l) [0, 0] (NewPointerMock twoStructs)).1
      = [(1, none), (2, none)] ∧
    (PointerMock.callGetAll (fun l => l)
      (PointerMock.createAll (fun l => l) [0, 0]
        (NewPointerMock twoStructs)).2).1.1.map Product.ID = [2, 2] ∧
    (1 : Int) ∉ [(2 : Int), 2] :=
  ⟨fun l => List.rotate_perm l 1, by decide, by decide, by decide, by decide, by decide,
   by decide⟩

/-- C12 as amended: after `n` successful `Create` calls on the empty in-memory repository
`GetAll` returns exactly `n` products, in the traversal order of the map; the created ids
are strictly increasing, and when the `n` calls were given `n` distinct structs the ids
listed are a permutation of the created ids, one product per created id.
`PostgresRepository.GetAll` issues one statement, `SELECT ... ORDER BY id`, and returns
one product per delivered row in the order delivered, so the ids listed are the ids
delivered, in that order, also through `Service.GetAll`. -/
theorem Service.GetAll_after_creates (iter : PointerMap → PointerMap)
    (hiter : ∀ l, (iter l).Perm l) (heap : Heap) (ps : List Nat)
    (hok : ∀ r ∈ (PointerMock.createAll iter ps (NewPointerMock heap)).1, r.2 = none) :
    (PointerMock.callGetAll iter
      (PointerMock.createAll iter ps (NewPointerMock heap)).2).1.2 = none ∧
    (PointerMock.callGetAll iter
      (PointerMock.createAll iter ps (NewPointerMock heap)).2).1.1.length = ps.length ∧
    ((PointerMock.createAll iter ps (NewPointerMock heap)).1.map Prod.fst).Pairwise
      (fun a b => a < b) ∧
    (ps.Nodup →
      ((PointerMock.callGetAll iter
        (PointerMock.createAll iter ps (NewPointerMock heap)).2).1.1.map Product.ID).Perm
        ((PointerMock.createAll iter ps (NewPointerMock heap)).1.map Prod.fst)) ∧
    (∀ (σ : Type) (db : DB σ) (s : σ) (log : List SqlCall),
      ((NewPostgresRepository (recording db)).GetAll (s, log)).2.2
        = log ++ [("\n\t\tSELECT id, name, description, price, quantity\n\t\tFROM products\n\t\tORDER BY id\n\t",
            [])]) ∧
    (∀ (σ : Type) (r : PostgresRepository σ) (s : σ) (cs : List ProductColumns),
      (r.db.Query
          "\n\t\tSELECT id, name, description, price, quantity\n\t\tFROM products\n\t\tORDER BY id\n\t"
          [] s).1 = Except.ok (cs.map Except.ok) →
      ((New r.asRepository).GetAll s).1
          = (cs.map PostgresRepository.productOfColumns, none) ∧
        ((New r.asRepository).GetAll s).1.1.length = cs.length ∧
        ((New r.asRepository).GetAll s).1.1.map Product.ID = cs.map Prod.fst) := by
  have hwf : (NewPointerMock heap).WellFormed :=
    (PointerMock.Reachable.empty heap).isWellFormed
  obtain ⟨e1, _, e3, e4⟩ := PointerMock.createAll_spec iter ps (NewPointerMock heap) hwf hok
  have hlen := PointerMock.createAll_length iter ps (NewPointerMock heap)
  have hp := hiter (PointerMock.createAll iter ps (NewPointerMock heap)).2.products
  have hg : (PointerMock.callGetAll iter
      (PointerMock.createAll iter ps (NewPointerMock heap)).2).1.1
        = (iter (PointerMock.createAll iter ps (NewPointerMock heap)).2.products).map
            (fun e => (PointerMock.createAll iter ps (NewPointerMock heap)).2.heap e.2) :=
    rfl
  have e1b : (PointerMock.createAll iter ps (NewPointerMock heap)).2.products.map Prod.fst
      = (PointerMock.createAll iter ps (NewPointerMock heap)).1.map Prod.fst := by
    rw [e1]; simp [NewPointerMock]
  refine ⟨rfl, ?_, e3, fun hnd => ?_,
    fun σ db s log => PostgresRepository.GetAll_statement db s log,
    fun σ r s cs h => ?_⟩
  · rw [hg, List.length_map, hp.length_eq]
    have := congrArg List.length e1b
    simpa [hlen] using this
  · have hcons : (PointerMock.createAll iter ps (NewPointerMock heap)).2.Consistent :=
      e4 hnd (fun p _ e he => by simp [NewPointerMock] at he)
        (fun e he => by simp [NewPointerMock] at he)
    rw [hg, List.map_map, ← e1b]
    refine (hp.map _).trans ?_
    exact List.Perm.of_eq (List.map_congr_left (fun e he => hcons e he))
  · have h1 := PostgresRepository.GetAll_of_rows r s cs h
    have h2 : ((New r.asRepository).GetAll s).1
        = (cs.map PostgresRepository.productOfColumns, none) := h1
    refine ⟨h2, by rw [h2]; simp, ?_⟩
    rw [h2]
    simp [List.map_map, Function.comp_def, PostgresRepository.productOfColumns]

theorem Service.GetAll_after_creates_witness :
    (∀ l : PointerMap, (l.rotate 1).Perm l) ∧
    (∀ r ∈ (PointerMock.createAll (fun l => l.rotate 1) [0, 1, 2]
        (NewPointerMock threeStructs)).1, r.2 = none) ∧
    (PointerMock.callGetAll (fun l => l.rotate 1)
      (PointerMock.createAll (fun l => l.rotate 1) [0, 1, 2]
        (NewPointerMock threeStructs)).2).1.1.length = 3 ∧
    ([0, 1, 2] : List Nat).Nodup ∧
    ((PointerMock.callGetAll (fun l => l.rotate 1)
      (PointerMock.createAll (fun l => l.rotate 1) [0, 1, 2]
        (NewPointerMock threeStructs)).2).1.1.map Product.ID).Perm
      ((PointerMock.createAll (fun l => l.rotate 1) [0, 1, 2]
        (NewPointerMock threeStructs)).1.map Prod.fst) ∧
    threeRows.map Prod.fst = [1, 2, 3] ∧
    ((New (NewPostgresRepository threeRowsDB).asRepository).GetAll ()).1.1.map Product.ID
      = threeRows.map Prod.fst :=
  have h := Service.GetAll_after_creates (fun l => l.rotate 1)
    (fun l => List.rotate_perm l 1) threeStructs [0, 1, 2] (by decide)
  ⟨fun l => List.rotate_perm l 1, by decide, h.2.1, by decide, h.2.2.2.1 (by decide),
   by decide,
   (h.2.2.2.2.2 Unit (NewPostgresRepository threeRowsDB) () threeRows rfl).2.2⟩

end ProductWarehouse
